import Mathlib

/-!
# Volkswagen MEB safety profile (`board/safety/safety_volkswagen_meb.h`)

A shallow embedding of the outbound gate (`volkswagen_meb_tx_hook`), the
longitudinal check (`vw_meb_longitudinal_accel_checks`), the forwarding
policy (`volkswagen_meb_fwd_hook`), the integrity validator
(`volkswagen_meb_compute_crc`), the activation (`volkswagen_meb_init`) and the
inbound state tracker (`volkswagen_meb_rx_hook`), followed by the theorems
about them.

Conventions
* `uint8_t` values are naturals reduced modulo 256, `uint32_t` arithmetic is
  done on naturals modulo `2 ^ 32`, `int` values are integers.
* The globals of the safety layer are the fields of `SafetyState`; a hook that
  writes a global returns the new state.
* Functions of the generic framework that the header only calls
  (`steer_angle_cmd_checks`, `get_longitudinal_allowed`) are fields of
  `Collaborators`: the value each returns at the moment of the call. Those
  the receive hook calls are fields of `RxCollaborators`: the change each
  makes to the globals at the moment of the call.
* `MSG_LH_EPS_03` comes from `safety_volkswagen_common.h` and is a parameter
  of every definition that uses it.
-/

namespace VolkswagenMeb

/-! ## Data model -/

/-- The part of `SteeringLimits` the header initialises. The C `float` literals are
kept as exact decimals; no theorem below computes with them. -/
structure SteeringLimits where
  max_steer : Int
  angle_deg_to_can : Rat
  angle_rate_up_lookup : List Rat × List Rat
  angle_rate_down_lookup : List Rat × List Rat
  inactive_angle_is_zero : Bool

/-- The part of `LongitudinalLimits` the header initialises (m/s2 * 1000). -/
structure LongitudinalLimits where
  max_accel : Int
  min_accel : Int
  inactive_accel : Int

/-- A CAN frame: address, bus, length in bytes and the payload buffer. -/
structure CANPacket_t where
  addr : Nat
  bus : Nat
  len : Nat
  data : List Nat

/-- The globals read or written by the profile. -/
structure SafetyState where
  controls_allowed : Bool
  controls_allowed_long : Bool
  gas_pressed : Bool
  gas_pressed_prev : Bool
  brake_pressed : Bool
  cruise_engaged_prev : Bool
  acc_main_on : Bool
  vehicle_moving : Bool
  volkswagen_longitudinal : Bool
  volkswagen_set_button_prev : Bool
  volkswagen_resume_button_prev : Bool
  volkswagen_steer_power_prev : Int
  volkswagen_esp_hold_confirmation : Bool
  volkswagen_desired_curvature : Int

/-- Results of the framework functions the gate calls, at the moment of the call.
`steer_angle_cmd_checks v req limits` is `true` when the framework reports a
violation. -/
structure Collaborators where
  steer_angle_cmd_checks : Int → Bool → SteeringLimits → Bool
  get_longitudinal_allowed : Bool

/-! ## Constants of the header -/

def VOLKSWAGEN_MEB_STEERING_LIMITS : SteeringLimits where
  max_steer := 31036
  angle_deg_to_can := 27777777 / 10000
  angle_rate_up_lookup := ([0, 5, 15], [3 / 10, 86 / 1000, 86 / 10000])
  angle_rate_down_lookup := ([0, 5, 15], [3 / 10, 2 / 10, 2 / 100])
  inactive_angle_is_zero := true

def VOLKSWAGEN_MEB_LONG_LIMITS : LongitudinalLimits where
  max_accel := 2000
  min_accel := -3500
  inactive_accel := 3010

def MSG_MEB_ESP_01 : Nat := 0xFC
def MSG_MEB_ESP_03 : Nat := 0x14C
def MSG_MEB_ESP_04 : Nat := 0x102
def MSG_MEB_ESP_05 : Nat := 0x139
def MSG_MEB_ABS_01 : Nat := 0x20A
def MSG_HCA_03 : Nat := 0x303
def MSG_MEB_EPS_01 : Nat := 0x13D
def MSG_MEB_ACC_01 : Nat := 0x300
def MSG_MEB_ACC_02 : Nat := 0x14D
def MSG_GRA_ACC_01 : Nat := 0x12B
def MSG_MOTOR_14 : Nat := 0x3BE
def MSG_LDW_02 : Nat := 0x397
def MSG_MEB_MOTOR_01 : Nat := 0x10B
def MSG_MEB_TRAVEL_ASSIST_01 : Nat := 0x26B

def volkswagen_accel_override : Int := 0

/-! ## Frame accessors and machine arithmetic -/

/-- Modelled from the spec: the frame accessor macro `GET_ADDR`, the frame's
protocol identifier. -/
def GET_ADDR (p : CANPacket_t) : Nat := p.addr

/-- Modelled from the spec: the frame accessor macro `GET_BYTE`, payload byte `i`
as a `uint8_t`. -/
def GET_BYTE (p : CANPacket_t) (i : Nat) : Nat := p.data.getD i 0 % 256

/-- Modelled from the spec: the frame accessor macro `GET_BIT`, bit `b % 8` (least
significant first) of payload byte `b / 8`. -/
def GET_BIT (p : CANPacket_t) (b : Nat) : Bool := (GET_BYTE p (b / 8) >>> (b % 8)) &&& 1 != 0

/-- Conversion of a `uint32_t` value to `int` (two's complement). -/
def to_int32 (x : Nat) : Int :=
  if x % 2 ^ 32 < 2 ^ 31 then ((x % 2 ^ 32 : Nat) : Int) else ((x % 2 ^ 32 : Nat) : Int) - 2 ^ 32

/-- Modelled from the spec: the generic limit comparison `max_limit_check(val, MAX, MIN)`,
`val > MAX or val < MIN`. -/
def max_limit_check (val max_val min_val : Int) : Bool :=
  decide (val > max_val) || decide (val < min_val)

/-! ## Longitudinal checks -/

def vw_meb_get_longitudinal_allowed_override (s : SafetyState) : Bool :=
  s.controls_allowed && s.controls_allowed_long && s.gas_pressed_prev

def vw_meb_longitudinal_accel_checks (c : Collaborators) (s : SafetyState) (desired_accel : Int)
    (limits : LongitudinalLimits) (override_accel : Int) : Bool :=
  let accel_valid :=
    c.get_longitudinal_allowed && !max_limit_check desired_accel limits.max_accel limits.min_accel
  let accel_valid_override :=
    vw_meb_get_longitudinal_allowed_override s && desired_accel == override_accel
  let accel_inactive := desired_accel == limits.inactive_accel
  !(accel_valid || accel_inactive || accel_valid_override)

/-! ## Outbound gate -/

/-- Line 240: `GET_BYTE(to_send, 3U) | (GET_BYTE(to_send, 4U) & 0x7FU << 8)`; in C the
shift binds tighter than `&`, so the mask is `0x7FU << 8`. -/
def hca_curvature_magnitude (to_send : CANPacket_t) : Nat :=
  GET_BYTE to_send 3 ||| (GET_BYTE to_send 4 &&& (0x7F <<< 8))

/-- Lines 240-245: the signed curvature request handed to `steer_angle_cmd_checks`. -/
def hca_desired_curvature_raw (to_send : CANPacket_t) : Int :=
  let desired_curvature_raw : Int := (hca_curvature_magnitude to_send : Nat)
  let sign := GET_BIT to_send 39
  if !sign then desired_curvature_raw * -1 else desired_curvature_raw

/-- Line 249: the steering-request flag. -/
def hca_steer_req (to_send : CANPacket_t) : Bool := GET_BIT to_send 14

/-- Line 250: `(GET_BYTE(to_send, 2U) >> 0) & 0x7FU`. -/
def hca_steer_power (to_send : CANPacket_t) : Int :=
  (((GET_BYTE to_send 2 >>> 0) &&& 0x7F : Nat) : Int)

/-- Line 275: `((((GET_BYTE(to_send, 4) & 0x7U) << 8) | GET_BYTE(to_send, 3)) * 5U) - 7220U`,
computed in `uint32_t` and stored in an `int`. -/
def acc_desired_accel (to_send : CANPacket_t) : Int :=
  let raw := ((GET_BYTE to_send 4 &&& 0x7) <<< 8) ||| GET_BYTE to_send 3
  to_int32 (((raw * 5) % 2 ^ 32 + (2 ^ 32 - 7220)) % 2 ^ 32)

/-- Lines 239-269: the HCA_03 block, from the running `tx` and the state. -/
def tx_hca_03 (c : Collaborators) (tx : Bool) (s : SafetyState) (to_send : CANPacket_t) :
    Bool × SafetyState :=
  let desired_curvature_raw := hca_desired_curvature_raw to_send
  let s := { s with volkswagen_desired_curvature := desired_curvature_raw }
  let steer_req := hca_steer_req to_send
  let steer_power := hca_steer_power to_send
  let tx :=
    if c.steer_angle_cmd_checks desired_curvature_raw steer_req VOLKSWAGEN_MEB_STEERING_LIMITS then
      let tx := false
      if steer_req && steer_power != 0 then
        if steer_power < s.volkswagen_steer_power_prev then true else tx
      else tx
    else tx
  let tx := if !steer_req && steer_power != 0 then false else tx
  (tx, { s with volkswagen_steer_power_prev := steer_power })

/-- Lines 273-280: the MEB_ACC_02 block. -/
def tx_meb_acc_02 (c : Collaborators) (tx : Bool) (s : SafetyState) (to_send : CANPacket_t) : Bool :=
  let desired_accel := acc_desired_accel to_send
  if vw_meb_longitudinal_accel_checks c s desired_accel VOLKSWAGEN_MEB_LONG_LIMITS
      volkswagen_accel_override then false else tx

/-- Lines 284-299: the GRA_ACC_01 block. -/
def tx_gra_acc_01 (tx : Bool) (s : SafetyState) (to_send : CANPacket_t) : Bool :=
  let is_set_cruise := GET_BIT to_send 16
  let is_resume_cruise := GET_BIT to_send 19
  let is_accel_cruise := GET_BIT to_send 17
  let is_decel_cruise := GET_BIT to_send 18
  let is_cancel := GET_BIT to_send 13
  let allowed := (is_cancel && s.cruise_engaged_prev) ||
    ((is_set_cruise || is_resume_cruise || is_accel_cruise || is_decel_cruise) &&
      s.controls_allowed && s.controls_allowed_long)
  if !allowed then false else tx

/-- The transmit hook: the verdict (`true` permits the frame) and the state afterwards. -/
def volkswagen_meb_tx_hook (c : Collaborators) (s : SafetyState) (to_send : CANPacket_t) :
    Bool × SafetyState :=
  let addr := GET_ADDR to_send
  let tx := true
  let r := if addr == MSG_HCA_03 then tx_hca_03 c tx s to_send else (tx, s)
  let tx := r.1
  let s := r.2
  let tx := if addr == MSG_MEB_ACC_02 then tx_meb_acc_02 c tx s to_send else tx
  let tx := if addr == MSG_GRA_ACC_01 then tx_gra_acc_01 tx s to_send else tx
  (tx, s)

/-! ## Forwarding policy -/

def volkswagen_meb_fwd_hook (volkswagen_longitudinal : Bool) (bus_num addr : Int) : Int :=
  if bus_num = 0 then 2
  else if bus_num = 2 then
    if addr = MSG_HCA_03 ∨ addr = MSG_LDW_02 then -1
    else if volkswagen_longitudinal ∧
        (addr = MSG_MEB_ACC_01 ∨ addr = MSG_MEB_ACC_02 ∨ addr = MSG_MEB_TRAVEL_ASSIST_01) then -1
    else 0
  else -1

/-! ## Concrete inputs used by the evaluated theorems -/

/-- The 15-bit magnitude of the HCA_03 curvature field as the wire format lays it out:
byte 3 is the low 8 bits, the low seven bits of byte 4 are bits 8..14. -/
def hca_encoded_magnitude (to_send : CANPacket_t) : Nat :=
  GET_BYTE to_send 3 ||| ((GET_BYTE to_send 4 &&& 0x7F) <<< 8)

/-- State right after `volkswagen_meb_init` in stock mode, nothing authorised. -/
def state_after_init : SafetyState where
  controls_allowed := false
  controls_allowed_long := false
  gas_pressed := false
  gas_pressed_prev := false
  brake_pressed := false
  cruise_engaged_prev := false
  acc_main_on := false
  vehicle_moving := false
  volkswagen_longitudinal := false
  volkswagen_set_button_prev := false
  volkswagen_resume_button_prev := false
  volkswagen_steer_power_prev := 0
  volkswagen_esp_hold_confirmation := false
  volkswagen_desired_curvature := 0

/-- A framework whose steering check reports a violation exactly when the value it
receives exceeds `max_steer` in absolute value (everything else is in order). -/
def magnitude_only_checks : Collaborators where
  steer_angle_cmd_checks := fun v _ limits => decide (limits.max_steer < |v|)
  get_longitudinal_allowed := true

/-- A framework whose steering check reports a violation on every frame (controls are
not allowed) and that does not authorise longitudinal control. -/
def controls_off_checks : Collaborators where
  steer_angle_cmd_checks := fun _ _ _ => true
  get_longitudinal_allowed := false

/-- An HCA_03 frame with the request flag clear, the given power byte and zero curvature. -/
def hca_idle_frame (power : Nat) : CANPacket_t where
  addr := 0x303
  bus := 0
  len := 24
  data := [0, 0, power, 0, 0] ++ List.replicate 19 0

/-- An HCA_03 frame with request flag set, the given power byte and curvature bytes. -/
def hca_frame (power byte3 byte4 : Nat) : CANPacket_t where
  addr := 0x303
  bus := 0
  len := 24
  data := [0, 0x40, power, byte3, byte4] ++ List.replicate 19 0

/-- A GRA_ACC_01 frame with the given bytes 1 and 2 (bits 8..15 and 16..23). -/
def gra_frame (byte1 byte2 : Nat) : CANPacket_t where
  addr := 0x12B
  bus := 0
  len := 8
  data := [0, byte1, byte2, 0, 0, 0, 0, 0]

/-- An MEB_ACC_02 frame with the given bytes 3 and 4. -/
def acc_frame (byte3 byte4 : Nat) : CANPacket_t where
  addr := 0x14D
  bus := 0
  len := 32
  data := [0, 0, 0, byte3, byte4] ++ List.replicate 27 0

/-- The steering powers of the frames the gate permits, in order, when the frames
are given to `volkswagen_meb_tx_hook` one after the other. -/
def permitted_powers (c : Collaborators) : SafetyState → List CANPacket_t → List Int
  | _, [] => []
  | s, p :: ps =>
    let r := volkswagen_meb_tx_hook c s p
    (if r.1 then [hca_steer_power p] else []) ++ permitted_powers c r.2 ps

/-! ## Integrity validator -/

/-- Modelled from the spec: the frame accessor macro `GET_LEN`, the payload length in
bytes. -/
def GET_LEN (p : CANPacket_t) : Nat := p.len

/-- Modelled from the spec: the frame accessor macro `GET_BUS`, the source bus. -/
def GET_BUS (p : CANPacket_t) : Nat := p.bus

/-- Modelled from the spec: the inner loop body of `gen_crc_lookup_table_8`, one MSB-first
shift of a `uint8_t` with the polynomial XORed in when the top bit is set. -/
def gen_crc_shift (poly crc : Nat) : Nat :=
  if crc &&& 0x80 != 0 then ((crc <<< 1) ^^^ poly) % 256 else (crc <<< 1) % 256

/-- Modelled from the spec: `gen_crc_lookup_table_8(poly, crc_lut)`, the 256-entry table
whose entry `i` is the byte `i` after eight shifts. -/
def gen_crc_lookup_table_8 (poly : Nat) : List Nat :=
  (List.range 256).map (fun i => Nat.iterate (gen_crc_shift poly) 8 i)

/-- A read of the `uint8_t` table `volkswagen_crc8_lut_8h2f` at a `uint8_t` index. -/
def lut_read (lut : List Nat) (crc : Nat) : Nat := lut.getD (crc % 256) 0 % 256

def volkswagen_meb_get_checksum (to_push : CANPacket_t) : Nat := GET_BYTE to_push 0

def volkswagen_meb_get_counter (to_push : CANPacket_t) : Nat := (GET_BYTE to_push 1 &&& 0xF) % 256

/-- Lines 96-100: the loop over bytes `1 .. len - 1`. -/
def crc_payload_loop (lut : List Nat) (to_push : CANPacket_t) : Nat :=
  (List.range' 1 (GET_LEN to_push - 1)).foldl
    (fun crc i => lut_read lut ((crc ^^^ GET_BYTE to_push i) % 256)) 0xFF

/-- Lines 102-125: the salt selected by address and counter is XORed in. `MSG_LH_EPS_03` is
defined in `safety_volkswagen_common.h` and is a parameter here. -/
def crc_apply_salt (MSG_LH_EPS_03 addr counter crc : Nat) : Nat :=
  if addr == MSG_LH_EPS_03 then
    (crc ^^^ [0xF5,0xF5,0xF5,0xF5,0xF5,0xF5,0xF5,0xF5,0xF5,0xF5,0xF5,0xF5,0xF5,0xF5,0xF5,0xF5].getD counter 0) % 256
  else if addr == MSG_GRA_ACC_01 then
    (crc ^^^ [0x6A,0x38,0xB4,0x27,0x22,0xEF,0xE1,0xBB,0xF8,0x80,0x84,0x49,0xC7,0x9E,0x1E,0x2B].getD counter 0) % 256
  else if addr == MSG_MEB_EPS_01 then
    (crc ^^^ [0x20,0xCA,0x68,0xD5,0x1B,0x31,0xE2,0xDA,0x08,0x0A,0xD4,0xDE,0x9C,0xE4,0x35,0x5B].getD counter 0) % 256
  else if addr == MSG_MEB_ESP_01 then
    (crc ^^^ [0x77,0x5C,0xA0,0x89,0x4B,0x7C,0xBB,0xD6,0x1F,0x6C,0x4F,0xF6,0x20,0x2B,0x43,0xDD].getD counter 0) % 256
  else if addr == MSG_MEB_ESP_03 then
    (crc ^^^ [0x16,0x35,0x59,0x15,0x9A,0x2A,0x97,0xB8,0x0E,0x4E,0x30,0xCC,0xB3,0x07,0x01,0xAD].getD counter 0) % 256
  else if addr == MSG_MEB_ESP_04 then
    (crc ^^^ [0xD7,0x12,0x85,0x7E,0x0B,0x34,0xFA,0x16,0x7A,0x25,0x2D,0x8F,0x04,0x8E,0x5D,0x35].getD counter 0) % 256
  else if addr == MSG_MEB_ESP_05 then
    (crc ^^^ [0xED,0x03,0x1C,0x13,0xC6,0x23,0x78,0x7A,0x8B,0x40,0x14,0x51,0xBF,0x68,0x32,0xBA].getD counter 0) % 256
  else if addr == MSG_MEB_MOTOR_01 then
    (crc ^^^ [0x77,0x5C,0xA0,0x89,0x4B,0x7C,0xBB,0xD6,0x1F,0x6C,0x4F,0xF6,0x20,0x2B,0x43,0xDD].getD counter 0) % 256
  else if addr == MSG_MOTOR_14 then
    (crc ^^^ [0x1F,0x28,0xC6,0x85,0xE6,0xF8,0xB0,0x19,0x5B,0x64,0x35,0x21,0xE4,0xF7,0x9C,0x24].getD counter 0) % 256
  else if addr == MSG_MEB_ABS_01 then
    (crc ^^^ [0x9D,0xE8,0x36,0xA1,0xCA,0x3B,0x1D,0x33,0xE0,0xD5,0xBB,0x5F,0xAE,0x3C,0x31,0x9F].getD counter 0) % 256
  else crc

/-- The checksum the validator computes for a frame, with the table `lut` in
`volkswagen_crc8_lut_8h2f`. -/
def volkswagen_meb_compute_crc (MSG_LH_EPS_03 : Nat) (lut : List Nat) (to_push : CANPacket_t) :
    Nat :=
  let addr := GET_ADDR to_push
  let crc := crc_payload_loop lut to_push
  let counter := volkswagen_meb_get_counter to_push
  let crc := crc_apply_salt MSG_LH_EPS_03 addr counter crc
  let crc := lut_read lut crc
  (crc ^^^ 0xFF) % 256

/-! ### Bitwise reference of the integrity code -/

/-- One MSB-first shift step of the CRC register with polynomial 0x2F, in arithmetic:
double the register, drop the bit leaving the register, and XOR 0x2F when that bit was set. -/
def ref_shift (x : Nat) : Nat := (2 * x) % 256 ^^^ (if 128 ≤ x then 0x2F else 0)

/-- Eight shift steps. -/
def ref_shift8 (x : Nat) : Nat := ref_shift (ref_shift (ref_shift (ref_shift
  (ref_shift (ref_shift (ref_shift (ref_shift x)))))))

/-- The salt tables, one per salted address, in the order the validator tests them. -/
def salt_tables (MSG_LH_EPS_03 : Nat) : List (Nat × List Nat) :=
  [ (MSG_LH_EPS_03, List.replicate 16 0xF5),
    (0x12B, [0x6A,0x38,0xB4,0x27,0x22,0xEF,0xE1,0xBB,0xF8,0x80,0x84,0x49,0xC7,0x9E,0x1E,0x2B]),
    (0x13D, [0x20,0xCA,0x68,0xD5,0x1B,0x31,0xE2,0xDA,0x08,0x0A,0xD4,0xDE,0x9C,0xE4,0x35,0x5B]),
    (0xFC, [0x77,0x5C,0xA0,0x89,0x4B,0x7C,0xBB,0xD6,0x1F,0x6C,0x4F,0xF6,0x20,0x2B,0x43,0xDD]),
    (0x14C, [0x16,0x35,0x59,0x15,0x9A,0x2A,0x97,0xB8,0x0E,0x4E,0x30,0xCC,0xB3,0x07,0x01,0xAD]),
    (0x102, [0xD7,0x12,0x85,0x7E,0x0B,0x34,0xFA,0x16,0x7A,0x25,0x2D,0x8F,0x04,0x8E,0x5D,0x35]),
    (0x139, [0xED,0x03,0x1C,0x13,0xC6,0x23,0x78,0x7A,0x8B,0x40,0x14,0x51,0xBF,0x68,0x32,0xBA]),
    (0x10B, [0x77,0x5C,0xA0,0x89,0x4B,0x7C,0xBB,0xD6,0x1F,0x6C,0x4F,0xF6,0x20,0x2B,0x43,0xDD]),
    (0x3BE, [0x1F,0x28,0xC6,0x85,0xE6,0xF8,0xB0,0x19,0x5B,0x64,0x35,0x21,0xE4,0xF7,0x9C,0x24]),
    (0x20A, [0x9D,0xE8,0x36,0xA1,0xCA,0x3B,0x1D,0x33,0xE0,0xD5,0xBB,0x5F,0xAE,0x3C,0x31,0x9F]) ]

/-- Whether the validator has a salt table for the address. -/
def has_salt (MSG_LH_EPS_03 addr : Nat) : Bool :=
  ((salt_tables MSG_LH_EPS_03).lookup addr).isSome

/-- The salt of an address for a counter value; 0 (no change under XOR) without a table. -/
def salt_entry (MSG_LH_EPS_03 addr counter : Nat) : Nat :=
  match (salt_tables MSG_LH_EPS_03).lookup addr with
  | some t => t.getD counter 0
  | none => 0

/-- The bitwise reference: start at 0xFF; for each byte at index `1 .. len - 1` XOR it in and
shift eight times; XOR the salt selected by the counter (byte 1 and 0xF); shift eight more
times; complement. -/
def crc_reference (MSG_LH_EPS_03 : Nat) (p : CANPacket_t) : Nat :=
  let crc := (List.range' 1 (p.len - 1)).foldl (fun crc i => ref_shift8 (crc ^^^ GET_BYTE p i)) 0xFF
  let crc := crc ^^^ salt_entry MSG_LH_EPS_03 p.addr (GET_BYTE p 1 &&& 0xF)
  255 - ref_shift8 crc

/-- The frame with payload byte `i` replaced by `v` (a buffer shorter than `i + 1` bytes is
first extended with zero bytes, which is how `GET_BYTE` reads it). -/
def set_byte (p : CANPacket_t) (i v : Nat) : CANPacket_t :=
  { p with data := (p.data ++ List.replicate (i + 1 - p.data.length) 0).set i v }

/-- The inverse of `ref_shift` on bytes: an odd result means the polynomial was XORed in. -/
def ref_unshift (y : Nat) : Nat :=
  if y % 2 = 1 then (y ^^^ 0x2F) / 2 + 128 else y / 2

/-- A frame with the given address, length and leading payload bytes in a 64-byte buffer. -/
def frame_of (addr len : Nat) (bytes : List Nat) : CANPacket_t where
  addr := addr
  bus := 0
  len := len
  data := bytes ++ List.replicate (64 - bytes.length) 0

/-! ## Profile activation and message tables -/

/-- An entry of a transmit allowlist: address, bus, length. -/
structure CanMsg where
  addr : Nat
  bus : Nat
  len : Nat

/-- The first (and only non-zero) message of an `RxCheck` entry. -/
structure RxCheck where
  addr : Nat
  bus : Nat
  len : Nat
  check_checksum : Bool
  max_counter : Nat
  frequency : Nat

/-- The pair of tables `BUILD_SAFETY_CFG` packs. -/
structure safety_config where
  rx_checks : List RxCheck
  tx_msgs : List CanMsg

def VOLKSWAGEN_MEB_STOCK_TX_MSGS (MSG_LH_EPS_03 : Nat) : List CanMsg :=
  [⟨MSG_HCA_03, 0, 24⟩, ⟨MSG_GRA_ACC_01, 0, 8⟩, ⟨MSG_GRA_ACC_01, 2, 8⟩, ⟨MSG_LDW_02, 0, 8⟩,
    ⟨MSG_LH_EPS_03, 2, 8⟩]

def VOLKSWAGEN_MEB_LONG_TX_MSGS (MSG_LH_EPS_03 : Nat) : List CanMsg :=
  [⟨MSG_MEB_ACC_01, 0, 48⟩, ⟨MSG_MEB_ACC_02, 0, 32⟩, ⟨MSG_HCA_03, 0, 24⟩, ⟨MSG_LDW_02, 0, 8⟩,
    ⟨MSG_LH_EPS_03, 2, 8⟩, ⟨MSG_MEB_TRAVEL_ASSIST_01, 0, 8⟩]

def volkswagen_meb_rx_checks (MSG_LH_EPS_03 : Nat) : List RxCheck :=
  [⟨MSG_LH_EPS_03, 0, 8, true, 15, 100⟩,
    ⟨MSG_MOTOR_14, 0, 8, true, 15, 10⟩,
    ⟨MSG_MEB_MOTOR_01, 0, 32, true, 15, 50⟩,
    ⟨MSG_GRA_ACC_01, 0, 8, true, 15, 33⟩,
    ⟨MSG_MEB_EPS_01, 0, 32, true, 15, 100⟩,
    ⟨MSG_MEB_ESP_01, 0, 48, true, 15, 100⟩,
    ⟨MSG_MEB_ESP_03, 0, 32, true, 15, 10⟩,
    ⟨MSG_MEB_ESP_04, 0, 48, true, 15, 50⟩,
    ⟨MSG_MEB_ESP_05, 0, 32, true, 15, 50⟩,
    ⟨MSG_MEB_ABS_01, 0, 64, true, 15, 50⟩]

/-- Lines 131-144. `allow_debug` says whether the build defines `ALLOW_DEBUG`, `long_param`
is the longitudinal flag of `param`. The result is the state, the table written to
`volkswagen_crc8_lut_8h2f` and the configuration returned. -/
def volkswagen_meb_init (MSG_LH_EPS_03 : Nat) (allow_debug long_param : Bool) (s : SafetyState) :
    SafetyState × List Nat × safety_config :=
  let s := { s with volkswagen_set_button_prev := false }
  let s := { s with volkswagen_resume_button_prev := false }
  let s := { s with volkswagen_steer_power_prev := 0 }
  let s := if allow_debug then { s with volkswagen_longitudinal := long_param } else s
  let lut := gen_crc_lookup_table_8 0x2F
  (s, lut,
    if s.volkswagen_longitudinal then
      ⟨volkswagen_meb_rx_checks MSG_LH_EPS_03, VOLKSWAGEN_MEB_LONG_TX_MSGS MSG_LH_EPS_03⟩
    else ⟨volkswagen_meb_rx_checks MSG_LH_EPS_03, VOLKSWAGEN_MEB_STOCK_TX_MSGS MSG_LH_EPS_03⟩)

/-! ## Inbound state tracker -/

/-- The framework functions the receive hook calls, each as the change it makes to the
globals at the moment of the call. `update_vehicle_speed avg` stands for
`UPDATE_VEHICLE_SPEED(avg * 0.0075 / 3.6)` and `update_angle_meas raw sign` for lines 169-178
from the 14-bit yaw magnitude and its sign bit: the floating-point scaling is theirs. -/
structure RxCollaborators where
  update_vehicle_speed : Nat → SafetyState → SafetyState
  update_angle_meas : Nat → Bool → SafetyState → SafetyState
  pcm_cruise_check : Bool → SafetyState → SafetyState
  mads_acc_main_check : Bool → SafetyState → SafetyState
  generic_rx_checks : Bool → SafetyState → SafetyState

/-- Lines 152-155: a 16-bit corner speed, `GET_BYTE(lo) | GET_BYTE(hi) << 8`. -/
def esp_01_word (to_push : CANPacket_t) (lo hi : Nat) : Nat :=
  (GET_BYTE to_push lo ||| (GET_BYTE to_push hi <<< 8)) % 2 ^ 32

/-- Line 159: `(fr + rr + rl + fl) / 4` in `uint32_t`. -/
def esp_01_speed_average (to_push : CANPacket_t) : Nat :=
  let fr := esp_01_word to_push 10 11
  let rr := esp_01_word to_push 14 15
  let rl := esp_01_word to_push 12 13
  let fl := esp_01_word to_push 8 9
  ((fr + rr + rl + fl) % 2 ^ 32) / 4

/-- Lines 151-160: the MEB_ESP_01 block. -/
def rx_meb_esp_01 (k : RxCollaborators) (s : SafetyState) (to_push : CANPacket_t) : SafetyState :=
  let fr := esp_01_word to_push 10 11
  let rr := esp_01_word to_push 14 15
  let rl := esp_01_word to_push 12 13
  let fl := esp_01_word to_push 8 9
  let moving := decide (fr > 0) || decide (rr > 0) || decide (rl > 0) || decide (fl > 0)
  let s := { s with vehicle_moving := moving }
  k.update_vehicle_speed (esp_01_speed_average to_push) s

/-- Line 169: the 14-bit yaw magnitude `GET_BYTE(5) | ((GET_BYTE(6) & 0x3F) << 8)`. -/
def esp_04_yaw_raw (to_push : CANPacket_t) : Nat :=
  GET_BYTE to_push 5 ||| ((GET_BYTE to_push 6 &&& 0x3F) <<< 8)

/-- Line 186: `TSK_Status`, `(GET_BYTE(to_push, 11U) >> 0) & 0x07U`. -/
def motor_01_acc_status (to_push : CANPacket_t) : Nat := (GET_BYTE to_push 11 >>> 0) &&& 0x07

/-- Line 187: the local `cruise_engaged`. -/
def motor_01_cruise_engaged (to_push : CANPacket_t) : Bool :=
  let acc_status := motor_01_acc_status to_push
  acc_status == 3 || acc_status == 4 || acc_status == 5

/-- Lines 182-195: the MEB_MOTOR_01 block. -/
def rx_meb_motor_01 (k : RxCollaborators) (s : SafetyState) (to_push : CANPacket_t) :
    SafetyState :=
  let acc_status := motor_01_acc_status to_push
  let cruise_engaged := motor_01_cruise_engaged to_push
  let s := { s with acc_main_on := cruise_engaged || acc_status == 2 }
  let s := if !s.volkswagen_longitudinal then k.pcm_cruise_check cruise_engaged s else s
  k.mads_acc_main_check s.acc_main_on s

/-- Lines 202-211: set and resume handling of the GRA_ACC_01 block. -/
def rx_gra_buttons (s : SafetyState) (to_push : CANPacket_t) : SafetyState :=
  if s.volkswagen_longitudinal then
    let set_button := GET_BIT to_push 16
    let resume_button := GET_BIT to_push 19
    let s :=
      if (s.volkswagen_set_button_prev && !set_button) ||
          (s.volkswagen_resume_button_prev && !resume_button) then
        let s := { s with controls_allowed := s.acc_main_on }
        { s with controls_allowed_long := s.acc_main_on }
      else s
    let s := { s with volkswagen_set_button_prev := set_button }
    { s with volkswagen_resume_button_prev := resume_button }
  else s

/-- Lines 214-216: cancel handling of the GRA_ACC_01 block. -/
def rx_gra_cancel (s : SafetyState) (to_push : CANPacket_t) : SafetyState :=
  if GET_BIT to_push 13 then { s with controls_allowed_long := false } else s

/-- Lines 198-217: the GRA_ACC_01 block. -/
def rx_gra_acc_01 (s : SafetyState) (to_push : CANPacket_t) : SafetyState :=
  rx_gra_cancel (rx_gra_buttons s to_push) to_push

/-- Lines 148-229: everything the receive hook does for a frame of bus 0 before
`generic_rx_checks`. -/
def rx_blocks (k : RxCollaborators) (s : SafetyState) (to_push : CANPacket_t) : SafetyState :=
  let addr := GET_ADDR to_push
  let s := if addr == MSG_MEB_ESP_01 then rx_meb_esp_01 k s to_push else s
  let s := if addr == MSG_MEB_ESP_05 then
    { s with volkswagen_esp_hold_confirmation := GET_BIT to_push 35 } else s
  let s := if addr == MSG_MEB_ESP_04 then
    k.update_angle_meas (esp_04_yaw_raw to_push) (GET_BIT to_push 54) s else s
  let s := if addr == MSG_MEB_MOTOR_01 then rx_meb_motor_01 k s to_push else s
  let s := if addr == MSG_GRA_ACC_01 then rx_gra_acc_01 s to_push else s
  let s := if addr == MSG_MOTOR_14 then { s with brake_pressed := GET_BIT to_push 28 } else s
  let s := if addr == MSG_MEB_ESP_03 then
    let accel_pedal_value : Int := (GET_BYTE to_push 21 : Nat) - 37
    { s with gas_pressed := accel_pedal_value != 0 } else s
  s

/-- The receive hook. -/
def volkswagen_meb_rx_hook (k : RxCollaborators) (s : SafetyState) (to_push : CANPacket_t) :
    SafetyState :=
  if GET_BUS to_push == 0 then
    let addr := GET_ADDR to_push
    k.generic_rx_checks (addr == MSG_HCA_03) (rx_blocks k s to_push)
  else s

/-- The states after each frame of a sequence given to the receive hook. -/
def rx_run (k : RxCollaborators) : SafetyState → List CANPacket_t → List SafetyState
  | _, [] => []
  | s, p :: ps => volkswagen_meb_rx_hook k s p :: rx_run k (volkswagen_meb_rx_hook k s p) ps

/-- Collaborators that leave the globals of `SafetyState` as they are. -/
def idle_collaborators : RxCollaborators where
  update_vehicle_speed := fun _ s => s
  update_angle_meas := fun _ _ s => s
  pcm_cruise_check := fun _ s => s
  mads_acc_main_check := fun _ s => s
  generic_rx_checks := fun _ s => s

/-- The payload bytes the receive hook reads for an address (bit `b` is in byte `b / 8`). -/
def rx_hook_reads (addr : Nat) : List Nat :=
  if addr == MSG_MEB_ESP_01 then [10, 11, 14, 15, 12, 13, 8, 9]
  else if addr == MSG_MEB_ESP_05 then [35 / 8]
  else if addr == MSG_MEB_ESP_04 then [5, 6, 54 / 8]
  else if addr == MSG_MEB_MOTOR_01 then [11]
  else if addr == MSG_GRA_ACC_01 then [16 / 8, 19 / 8, 13 / 8]
  else if addr == MSG_MOTOR_14 then [28 / 8]
  else if addr == MSG_MEB_ESP_03 then [21]
  else []

/-- The payload bytes the transmit hook reads for an address. -/
def tx_hook_reads (addr : Nat) : List Nat :=
  if addr == MSG_HCA_03 then [3, 4, 39 / 8, 14 / 8, 2]
  else if addr == MSG_MEB_ACC_02 then [4, 3]
  else if addr == MSG_GRA_ACC_01 then [16 / 8, 19 / 8, 17 / 8, 18 / 8, 13 / 8]
  else []

/-- Two frames with the same address and bus that agree on the listed payload bytes. -/
def same_on (reads : List Nat) (p q : CANPacket_t) : Prop :=
  GET_ADDR p = GET_ADDR q ∧ GET_BUS p = GET_BUS q ∧ ∀ i ∈ reads, GET_BYTE p i = GET_BYTE q i

/-- Encoding of an acceleration (m/s2 * 1000) with scale 5 and offset -7220: the raw value
`(a + 7220) / 5` goes to byte 3 (low 8 bits) and the low three bits of byte 4 of an
MEB_ACC_02 frame. -/
def acc_encode (a : Int) : CANPacket_t :=
  let raw := ((a + 7220) / 5).toNat
  frame_of 0x14D 32 [0, 0, 0, raw % 256, (raw / 256) % 8]

/-- The collaborators leave the global read by `f` as it is. -/
def keeps (k : RxCollaborators) (f : SafetyState → Bool) : Prop :=
  (∀ n s, f (k.update_vehicle_speed n s) = f s) ∧
  (∀ n b s, f (k.update_angle_meas n b s) = f s) ∧
  (∀ b s, f (k.pcm_cruise_check b s) = f s) ∧
  (∀ b s, f (k.mads_acc_main_check b s) = f s) ∧
  (∀ b s, f (k.generic_rx_checks b s) = f s)

/-- Collaborators of which `pcm_cruise_check` stores the value it is given in
`cruise_engaged_prev` and the others leave the globals as they are. -/
def recording_collaborators : RxCollaborators where
  update_vehicle_speed := fun _ s => s
  update_angle_meas := fun _ _ s => s
  pcm_cruise_check := fun b s => { s with cruise_engaged_prev := b }
  mads_acc_main_check := fun _ s => s
  generic_rx_checks := fun _ s => s

/-- An MEB_MOTOR_01 frame of bus 0 with the given byte 11. -/
def motor_frame (byte11 : Nat) : CANPacket_t :=
  frame_of 0x10B 32 (List.replicate 11 0 ++ [byte11])

/-- An MEB_ESP_01 frame of bus 0 with the given bytes 8 to 15. -/
def esp_frame (bytes : List Nat) : CANPacket_t :=
  frame_of 0xFC 48 (List.replicate 8 0 ++ bytes)

/-- The little-endian value of the 16-bit word at bytes `lo`, `lo + 1`. -/
def word_le (p : CANPacket_t) (lo : Nat) : Nat := GET_BYTE p lo + 256 * GET_BYTE p (lo + 1)

/-- Lines 205: the falling-edge test of the set and resume handling. -/
def gra_falling_edge (s : SafetyState) (to_push : CANPacket_t) : Bool :=
  (s.volkswagen_set_button_prev && !GET_BIT to_push 16) ||
    (s.volkswagen_resume_button_prev && !GET_BIT to_push 19)

/-- Longitudinal mode, main switch on, set and resume both held, nothing authorised. -/
def buttons_held_state : SafetyState :=
  { state_after_init with volkswagen_longitudinal := true,
                          volkswagen_set_button_prev := true,
                          volkswagen_resume_button_prev := true,
                          acc_main_on := true }

/-! ## Auxiliary facts -/

theorem byte_and_shifted_mask (b : Nat) : (b % 256) &&& (0x7F <<< 8) = 0 := by
  have h : b % 256 < 256 := Nat.mod_lt _ (by decide)
  generalize b % 256 = x at h
  interval_cases x <;> rfl

/-- The magnitude the gate decodes is byte 3 alone. -/
theorem hca_curvature_magnitude_eq (p : CANPacket_t) :
    hca_curvature_magnitude p = GET_BYTE p 3 := by
  unfold hca_curvature_magnitude
  have h : GET_BYTE p 4 &&& (0x7F <<< 8) = 0 := byte_and_shifted_mask _
  rw [h]
  simp

theorem tx_hook_on_hca (c : Collaborators) (s : SafetyState) (p : CANPacket_t)
    (h : GET_ADDR p = MSG_HCA_03) :
    volkswagen_meb_tx_hook c s p = tx_hca_03 c true s p := by
  simp [volkswagen_meb_tx_hook, h, MSG_HCA_03, MSG_MEB_ACC_02, MSG_GRA_ACC_01]

theorem tx_hook_on_acc (c : Collaborators) (s : SafetyState) (p : CANPacket_t)
    (h : GET_ADDR p = MSG_MEB_ACC_02) :
    volkswagen_meb_tx_hook c s p = (tx_meb_acc_02 c true s p, s) := by
  simp [volkswagen_meb_tx_hook, h, MSG_HCA_03, MSG_MEB_ACC_02, MSG_GRA_ACC_01]

theorem tx_hook_on_gra (c : Collaborators) (s : SafetyState) (p : CANPacket_t)
    (h : GET_ADDR p = MSG_GRA_ACC_01) :
    volkswagen_meb_tx_hook c s p = (tx_gra_acc_01 true s p, s) := by
  simp [volkswagen_meb_tx_hook, h, MSG_HCA_03, MSG_MEB_ACC_02, MSG_GRA_ACC_01]

theorem hca_steer_power_eq (p : CANPacket_t) :
    hca_steer_power p = ((GET_BYTE p 2 &&& 0x7F : Nat) : Int) := by
  simp [hca_steer_power]

theorem tx_hca_03_power_prev (c : Collaborators) (tx : Bool) (s : SafetyState)
    (p : CANPacket_t) :
    (tx_hca_03 c tx s p).2.volkswagen_steer_power_prev = hca_steer_power p := by
  simp [tx_hca_03]

/-! ## Steering gate -/

/-- C1, evaluated on the code. The HCA_03 frame with byte 3 = 0xFF and byte 4 = 0xFF
encodes the curvature magnitude 32767, above `max_steer` = 31036, with the request flag set
and power 0. The framework reports a violation for every value above `max_steer`. The gate
nevertheless hands the value 255 to `steer_angle_cmd_checks` and permits the frame. -/
theorem tx_hook_permits_magnitude_above_max_steer :
    GET_ADDR (hca_frame 0 0xFF 0xFF) = MSG_HCA_03 ∧
    hca_encoded_magnitude (hca_frame 0 0xFF 0xFF) = 32767 ∧
    VOLKSWAGEN_MEB_STEERING_LIMITS.max_steer = 31036 ∧
    (∀ (v : Int) (req : Bool) (l : SteeringLimits), l.max_steer < |v| →
      magnitude_only_checks.steer_angle_cmd_checks v req l = true) ∧
    hca_desired_curvature_raw (hca_frame 0 0xFF 0xFF) = 255 ∧
    (volkswagen_meb_tx_hook magnitude_only_checks state_after_init
      (hca_frame 0 0xFF 0xFF)).1 = true := by
  refine ⟨rfl, rfl, rfl, ?_, rfl, ?_⟩
  · intro v req l h
    simp [magnitude_only_checks, h]
  · decide

/-- C2. An HCA_03 frame with the request flag (bit 14) clear and a nonzero steering power
(byte 2 and 0x7F) is blocked, whatever the state and whatever the framework's steering
check returns. -/
theorem tx_hook_blocks_power_without_request (c : Collaborators) (s : SafetyState)
    (p : CANPacket_t) (haddr : GET_ADDR p = MSG_HCA_03) (hreq : GET_BIT p 14 = false)
    (hpow : GET_BYTE p 2 &&& 0x7F ≠ 0) :
    (volkswagen_meb_tx_hook c s p).1 = false := by
  have hp : hca_steer_power p ≠ 0 := by
    rw [hca_steer_power_eq]
    exact_mod_cast hpow
  rw [tx_hook_on_hca c s p haddr]
  simp [tx_hca_03, hca_steer_req, hreq, hp]

theorem tx_hook_blocks_power_without_request_witness :
    GET_ADDR (hca_idle_frame 5) = MSG_HCA_03 ∧
    GET_BIT (hca_idle_frame 5) 14 = false ∧
    (volkswagen_meb_tx_hook magnitude_only_checks state_after_init
      (hca_idle_frame 5)).1 = false :=
  ⟨rfl, rfl, tx_hook_blocks_power_without_request magnitude_only_checks state_after_init
    (hca_idle_frame 5) rfl rfl (by decide)⟩

/-- C3, the decay exception. An HCA_03 frame with the request flag (bit 14) set and
a steering power `p` with `0 < p < volkswagen_steer_power_prev` is permitted, whatever the
framework's steering check returns. -/
theorem tx_hook_decay_exception (c : Collaborators) (s : SafetyState) (p : CANPacket_t)
    (haddr : GET_ADDR p = MSG_HCA_03) (hreq : GET_BIT p 14 = true)
    (hpos : 0 < GET_BYTE p 2 &&& 0x7F)
    (hlt : ((GET_BYTE p 2 &&& 0x7F : Nat) : Int) < s.volkswagen_steer_power_prev) :
    (volkswagen_meb_tx_hook c s p).1 = true := by
  have hp : hca_steer_power p ≠ 0 := by
    rw [hca_steer_power_eq]
    exact_mod_cast Nat.ne_of_gt hpos
  have hl : hca_steer_power p < s.volkswagen_steer_power_prev := by
    rw [hca_steer_power_eq]
    exact hlt
  rw [tx_hook_on_hca c s p haddr]
  simp [tx_hca_03, hca_steer_req, hreq, hp, hl]

theorem tx_hook_decay_exception_witness :
    (controls_off_checks.steer_angle_cmd_checks (hca_desired_curvature_raw (hca_frame 5 0 0))
      (hca_steer_req (hca_frame 5 0 0)) VOLKSWAGEN_MEB_STEERING_LIMITS = true) ∧
    (volkswagen_meb_tx_hook controls_off_checks
      { state_after_init with volkswagen_steer_power_prev := 9 } (hca_frame 5 0 0)).1 = true :=
  ⟨rfl, tx_hook_decay_exception controls_off_checks
    { state_after_init with volkswagen_steer_power_prev := 9 } (hca_frame 5 0 0) rfl rfl
    (by decide) (by decide)⟩

/-- C4 as stated fails. Two consecutive HCA_03 frames, both with the request flag set, powers
5 then 0 (strictly decreasing), the framework reporting a violation: the second frame is
blocked. -/
theorem tx_hook_decreasing_to_zero_blocked :
    GET_ADDR (hca_frame 5 0 0) = MSG_HCA_03 ∧ GET_ADDR (hca_frame 0 0 0) = MSG_HCA_03 ∧
    GET_BIT (hca_frame 5 0 0) 14 = true ∧ GET_BIT (hca_frame 0 0 0) 14 = true ∧
    hca_steer_power (hca_frame 0 0 0) < hca_steer_power (hca_frame 5 0 0) ∧
    controls_off_checks.steer_angle_cmd_checks (hca_desired_curvature_raw (hca_frame 0 0 0))
      (hca_steer_req (hca_frame 0 0 0)) VOLKSWAGEN_MEB_STEERING_LIMITS = true ∧
    (volkswagen_meb_tx_hook controls_off_checks
      (volkswagen_meb_tx_hook controls_off_checks state_after_init (hca_frame 5 0 0)).2
      (hca_frame 0 0 0)).1 = false := by
  decide

/-- C4, amended. For two consecutive HCA_03 frames `f1`, `f2`, both with the request flag
set, with the power of `f2` nonzero and strictly less than the power of `f1`, the gate
permits `f2`, whatever the framework's steering check returns on either frame and whether
or not `f1` was permitted. -/
theorem tx_hook_consecutive_decreasing (c1 c2 : Collaborators) (s : SafetyState)
    (f1 f2 : CANPacket_t) (h1 : GET_ADDR f1 = MSG_HCA_03) (h2 : GET_ADDR f2 = MSG_HCA_03)
    (_hreq1 : GET_BIT f1 14 = true) (hreq2 : GET_BIT f2 14 = true)
    (hnz : hca_steer_power f2 ≠ 0) (hlt : hca_steer_power f2 < hca_steer_power f1) :
    (volkswagen_meb_tx_hook c2 (volkswagen_meb_tx_hook c1 s f1).2 f2).1 = true := by
  have hprev : (volkswagen_meb_tx_hook c1 s f1).2.volkswagen_steer_power_prev =
      hca_steer_power f1 := by
    rw [tx_hook_on_hca c1 s f1 h1]
    exact tx_hca_03_power_prev c1 true s f1
  rw [tx_hook_on_hca c2 _ f2 h2]
  simp [tx_hca_03, hca_steer_req, hreq2, hnz, hprev, hlt]

theorem tx_hook_consecutive_decreasing_witness :
    (volkswagen_meb_tx_hook controls_off_checks state_after_init (hca_frame 5 0 0)).1 = false ∧
    (volkswagen_meb_tx_hook controls_off_checks
      (volkswagen_meb_tx_hook controls_off_checks state_after_init (hca_frame 5 0 0)).2
      (hca_frame 3 0 0)).1 = true :=
  ⟨by decide, tx_hook_consecutive_decreasing controls_off_checks controls_off_checks
    state_after_init (hca_frame 5 0 0) (hca_frame 3 0 0) rfl rfl rfl rfl (by decide)
    (by decide)⟩

/-- C5, evaluated on the code. The framework reports a violation on every frame. From a
previous power of 10, the HCA_03 frames with request flag set and powers 5, 127, 126 are
given to the gate in this order: the frames with powers 5 and 126 are permitted, so a frame
with a power above an earlier permitted one is permitted. -/
theorem permitted_powers_not_decreasing :
    (∀ (v : Int) (req : Bool) (l : SteeringLimits),
      controls_off_checks.steer_angle_cmd_checks v req l = true) ∧
    permitted_powers controls_off_checks
      { state_after_init with volkswagen_steer_power_prev := 10 }
      [hca_frame 5 0 0, hca_frame 127 0 0, hca_frame 126 0 0] = [5, 126] := by
  refine ⟨fun _ _ _ => rfl, ?_⟩
  decide

/-! ## Longitudinal gate and cruise buttons -/

theorem acc_desired_accel_inactive (p : CANPacket_t)
    (hraw : ((GET_BYTE p 4 &&& 0x7) <<< 8) ||| GET_BYTE p 3 = 2046) :
    acc_desired_accel p = 3010 := by
  unfold acc_desired_accel
  simp only [hraw]
  decide

/-- C6. `vw_meb_longitudinal_accel_checks` returns `false` (permit) exactly when
(a) `get_longitudinal_allowed()` holds and `min_accel <= desired_accel <= max_accel`, or
(b) `controls_allowed`, `controls_allowed_long` and `gas_pressed_prev` all hold and
`desired_accel == override_accel`, or (c) `desired_accel == inactive_accel`; and whenever it
returns `true` on the acceleration decoded from an MEB_ACC_02 frame, the transmit hook
blocks that frame. -/
theorem longitudinal_accel_checks_iff (c : Collaborators) (s : SafetyState)
    (desired_accel : Int) (limits : LongitudinalLimits) (override_accel : Int)
    (p : CANPacket_t) :
    (vw_meb_longitudinal_accel_checks c s desired_accel limits override_accel = false ↔
      ((c.get_longitudinal_allowed = true ∧ limits.min_accel ≤ desired_accel ∧
          desired_accel ≤ limits.max_accel) ∨
        (s.controls_allowed = true ∧ s.controls_allowed_long = true ∧
          s.gas_pressed_prev = true ∧ desired_accel = override_accel) ∨
        desired_accel = limits.inactive_accel)) ∧
    (GET_ADDR p = MSG_MEB_ACC_02 →
      vw_meb_longitudinal_accel_checks c s (acc_desired_accel p) VOLKSWAGEN_MEB_LONG_LIMITS
        volkswagen_accel_override = true →
      (volkswagen_meb_tx_hook c s p).1 = false) := by
  constructor
  · simp only [vw_meb_longitudinal_accel_checks, vw_meb_get_longitudinal_allowed_override,
      max_limit_check, Bool.not_eq_false_eq_eq_true, Bool.or_eq_true, Bool.and_eq_true,
      Bool.not_eq_true_eq_eq_false, Bool.or_eq_false_iff, decide_eq_false_iff_not,
      beq_iff_eq, not_lt, gt_iff_lt]
    tauto
  · intro haddr hchk
    rw [tx_hook_on_acc c s p haddr]
    simp [tx_meb_acc_02, hchk]

theorem longitudinal_accel_checks_iff_witness :
    vw_meb_longitudinal_accel_checks controls_off_checks state_after_init
      (acc_desired_accel (acc_frame 0 0)) VOLKSWAGEN_MEB_LONG_LIMITS
      volkswagen_accel_override = true ∧
    (volkswagen_meb_tx_hook controls_off_checks state_after_init (acc_frame 0 0)).1 = false :=
  ⟨by decide, (longitudinal_accel_checks_iff controls_off_checks state_after_init 0
    VOLKSWAGEN_MEB_LONG_LIMITS 0 (acc_frame 0 0)).2 rfl (by decide)⟩

/-- C7. An MEB_ACC_02 frame whose 11-bit raw acceleration `((byte 4 and 0x7) << 8) | byte 3`
is 2046 decodes to the inactive sentinel 3010 and is permitted, for every state and every
answer of `get_longitudinal_allowed()`. -/
theorem tx_hook_permits_inactive_accel (c : Collaborators) (s : SafetyState) (p : CANPacket_t)
    (haddr : GET_ADDR p = MSG_MEB_ACC_02)
    (hraw : ((GET_BYTE p 4 &&& 0x7) <<< 8) ||| GET_BYTE p 3 = 2046) :
    acc_desired_accel p = VOLKSWAGEN_MEB_LONG_LIMITS.inactive_accel ∧
    (volkswagen_meb_tx_hook c s p).1 = true := by
  have hacc := acc_desired_accel_inactive p hraw
  refine ⟨hacc, ?_⟩
  rw [tx_hook_on_acc c s p haddr]
  simp [tx_meb_acc_02, vw_meb_longitudinal_accel_checks, hacc, VOLKSWAGEN_MEB_LONG_LIMITS]

theorem tx_hook_permits_inactive_accel_witness :
    GET_ADDR (acc_frame 0xFE 0x07) = MSG_MEB_ACC_02 ∧
    acc_desired_accel (acc_frame 0xFE 0x07) = 3010 ∧
    (volkswagen_meb_tx_hook controls_off_checks state_after_init
      (acc_frame 0xFE 0x07)).1 = true :=
  ⟨rfl, tx_hook_permits_inactive_accel controls_off_checks state_after_init
    (acc_frame 0xFE 0x07) rfl (by decide)⟩

/-- C8. A GRA_ACC_01 frame is permitted exactly when (cancel bit 13 is set and
`cruise_engaged_prev` holds) or (one of set bit 16, accel bit 17, decel bit 18, resume
bit 19 is set and `controls_allowed` and `controls_allowed_long` both hold). -/
theorem tx_hook_gra_acc_01_iff (c : Collaborators) (s : SafetyState) (p : CANPacket_t)
    (haddr : GET_ADDR p = MSG_GRA_ACC_01) :
    (volkswagen_meb_tx_hook c s p).1 = true ↔
      ((GET_BIT p 13 = true ∧ s.cruise_engaged_prev = true) ∨
        ((GET_BIT p 16 = true ∨ GET_BIT p 17 = true ∨ GET_BIT p 18 = true ∨
            GET_BIT p 19 = true) ∧
          s.controls_allowed = true ∧ s.controls_allowed_long = true)) := by
  rw [tx_hook_on_gra c s p haddr]
  simp only [tx_gra_acc_01]
  cases GET_BIT p 13 <;> cases GET_BIT p 16 <;> cases GET_BIT p 17 <;> cases GET_BIT p 18 <;>
    cases GET_BIT p 19 <;> cases s.cruise_engaged_prev <;> cases s.controls_allowed <;>
    cases s.controls_allowed_long <;> simp

theorem tx_hook_gra_acc_01_iff_witness :
    (volkswagen_meb_tx_hook controls_off_checks
      { state_after_init with cruise_engaged_prev := true } (gra_frame 0x20 0)).1 = true :=
  (tx_hook_gra_acc_01_iff controls_off_checks
    { state_after_init with cruise_engaged_prev := true } (gra_frame 0x20 0) rfl).2
    (Or.inl ⟨rfl, rfl⟩)

/-- C9, evaluated on the code. With `controls_allowed` and `controls_allowed_long` false and
`cruise_engaged_prev` true, the GRA_ACC_01 frame carrying the cancel bit 13 together with
the resume bit 19 is permitted. -/
theorem tx_hook_permits_resume_with_cancel_controls_off :
    ({ state_after_init with cruise_engaged_prev := true } : SafetyState).controls_allowed
      = false ∧
    ({ state_after_init with cruise_engaged_prev := true } : SafetyState).controls_allowed_long
      = false ∧
    GET_ADDR (gra_frame 0x20 0x08) = MSG_GRA_ACC_01 ∧
    GET_BIT (gra_frame 0x20 0x08) 13 = true ∧ GET_BIT (gra_frame 0x20 0x08) 19 = true ∧
    (volkswagen_meb_tx_hook controls_off_checks
      { state_after_init with cruise_engaged_prev := true } (gra_frame 0x20 0x08)).1 = true := by
  decide

/-! ## Forwarding policy -/

/-- C10. `volkswagen_meb_fwd_hook` returns 2 for bus 0; for bus 2 it returns -1 for HCA_03
and LDW_02 in either mode, -1 for MEB_ACC_01, MEB_ACC_02 and MEB_TRAVEL_ASSIST_01 when
`volkswagen_longitudinal` is set, and 0 otherwise; it returns -1 for every other bus. The
result differs from the source bus for every bus number other than the do-not-forward
value -1, and the two modes differ only for those three addresses on bus 2. -/
theorem fwd_hook_policy (long_flag : Bool) (bus_num addr : Int) :
    (bus_num = 0 → volkswagen_meb_fwd_hook long_flag bus_num addr = 2) ∧
    (bus_num = 2 → (addr = 0x303 ∨ addr = 0x397) →
      volkswagen_meb_fwd_hook long_flag bus_num addr = -1) ∧
    (bus_num = 2 → long_flag = true → (addr = 0x300 ∨ addr = 0x14D ∨ addr = 0x26B) →
      volkswagen_meb_fwd_hook long_flag bus_num addr = -1) ∧
    (bus_num = 2 → addr ≠ 0x303 → addr ≠ 0x397 →
      ¬ (long_flag = true ∧ (addr = 0x300 ∨ addr = 0x14D ∨ addr = 0x26B)) →
      volkswagen_meb_fwd_hook long_flag bus_num addr = 0) ∧
    (bus_num ≠ 0 → bus_num ≠ 2 → volkswagen_meb_fwd_hook long_flag bus_num addr = -1) ∧
    (bus_num ≠ -1 → volkswagen_meb_fwd_hook long_flag bus_num addr ≠ bus_num) ∧
    (volkswagen_meb_fwd_hook true bus_num addr ≠ volkswagen_meb_fwd_hook false bus_num addr →
      bus_num = 2 ∧ (addr = 0x300 ∨ addr = 0x14D ∨ addr = 0x26B)) := by
  simp only [volkswagen_meb_fwd_hook, MSG_HCA_03, MSG_LDW_02, MSG_MEB_ACC_01, MSG_MEB_ACC_02,
    MSG_MEB_TRAVEL_ASSIST_01, Nat.cast_ofNat]
  refine ⟨?_, ?_, ?_, ?_, ?_, ?_, ?_⟩
  · intro h; simp [h]
  · intro h ha; simp [h, ha]
  · intro h hl ha
    rcases ha with ha | ha | ha <;> simp [h, hl, ha]
  · intro h h1 h2 h3
    simp [h, h1, h2, h3]
  · intro h0 h2; simp [h0, h2]
  · intro hne
    by_cases h0 : bus_num = 0
    · simp [h0]
    · by_cases h2 : bus_num = 2
      · subst h2
        simp only [show ¬ ((2 : Int) = 0) by decide, if_false, if_true]
        split_ifs <;> decide
      · simp only [h0, h2, if_false]
        exact fun h => hne h.symm
  · intro hne
    by_cases h0 : bus_num = 0
    · simp [h0] at hne
    · by_cases h2 : bus_num = 2
      · refine ⟨h2, ?_⟩
        by_contra hc
        apply hne
        simp [h2, hc]
      · simp [h0, h2] at hne

theorem fwd_hook_policy_witness :
    volkswagen_meb_fwd_hook true 0 0x303 = 2 ∧ volkswagen_meb_fwd_hook false 2 0x303 = -1 ∧
    volkswagen_meb_fwd_hook true 2 0x14D = -1 ∧ volkswagen_meb_fwd_hook false 2 0x14D = 0 ∧
    volkswagen_meb_fwd_hook true 1 0x14D = -1 ∧ volkswagen_meb_fwd_hook true 2 0x12B ≠ 2 :=
  ⟨(fwd_hook_policy true 0 0x303).1 rfl,
    (fwd_hook_policy false 2 0x303).2.1 rfl (Or.inl rfl),
    (fwd_hook_policy true 2 0x14D).2.2.1 rfl rfl (Or.inr (Or.inl rfl)),
    (fwd_hook_policy false 2 0x14D).2.2.2.1 rfl (by decide) (by decide) (by simp),
    (fwd_hook_policy true 1 0x14D).2.2.2.2.1 (by decide) (by decide),
    (fwd_hook_policy true 2 0x12B).2.2.2.2.2.1 (by decide)⟩

/-! ## Integrity validator: auxiliary facts -/

theorem GET_BYTE_lt (p : CANPacket_t) (i : Nat) : GET_BYTE p i < 256 :=
  Nat.mod_lt _ (by decide)

theorem gen_crc_shift_eq_ref (x : Nat) (h : x < 256) : gen_crc_shift 0x2F x = ref_shift x := by
  interval_cases x <;> rfl

theorem ref_shift_lt (x : Nat) : ref_shift x < 256 := by
  unfold ref_shift
  have h1 : (2 * x) % 256 < 2 ^ 8 := Nat.mod_lt _ (by decide)
  have h2 : (if 128 ≤ x then 0x2F else 0) < 2 ^ 8 := by split <;> decide
  exact Nat.xor_lt_two_pow h1 h2

theorem ref_shift8_lt (x : Nat) : ref_shift8 x < 256 := ref_shift_lt _

theorem gen_crc_iterate_eq_ref (x : Nat) (h : x < 256) :
    Nat.iterate (gen_crc_shift 0x2F) 8 x = ref_shift8 x := by
  simp only [Nat.iterate, ref_shift8]
  rw [gen_crc_shift_eq_ref x h, gen_crc_shift_eq_ref _ (ref_shift_lt _),
    gen_crc_shift_eq_ref _ (ref_shift_lt _), gen_crc_shift_eq_ref _ (ref_shift_lt _),
    gen_crc_shift_eq_ref _ (ref_shift_lt _), gen_crc_shift_eq_ref _ (ref_shift_lt _),
    gen_crc_shift_eq_ref _ (ref_shift_lt _), gen_crc_shift_eq_ref _ (ref_shift_lt _)]

/-- A read of the generated table is eight shift steps of the index. -/
theorem lut_read_gen (x : Nat) :
    lut_read (gen_crc_lookup_table_8 0x2F) x = ref_shift8 (x % 256) := by
  have hx : x % 256 < 256 := Nat.mod_lt _ (by decide)
  unfold lut_read gen_crc_lookup_table_8
  rw [List.getD_eq_getElem?_getD, List.getElem?_map, List.getElem?_range hx]
  simp only [Option.map_some', Option.getD_some]
  rw [gen_crc_iterate_eq_ref _ hx]
  exact Nat.mod_eq_of_lt (ref_shift8_lt _)

theorem xor_byte_lt {a b : Nat} (ha : a < 256) (hb : b < 256) : a ^^^ b < 256 :=
  Nat.xor_lt_two_pow (n := 8) ha hb

theorem payload_fold_eq_ref (p : CANPacket_t) (l : List Nat) :
    ∀ c, c < 256 →
      l.foldl (fun crc i => lut_read (gen_crc_lookup_table_8 0x2F) ((crc ^^^ GET_BYTE p i) % 256)) c
        = l.foldl (fun crc i => ref_shift8 (crc ^^^ GET_BYTE p i)) c := by
  induction l with
  | nil => intro c _; rfl
  | cons i l ih =>
    intro c hc
    have hx : c ^^^ GET_BYTE p i < 256 := xor_byte_lt hc (GET_BYTE_lt p i)
    simp only [List.foldl_cons]
    rw [lut_read_gen, Nat.mod_mod, Nat.mod_eq_of_lt hx]
    exact ih _ (ref_shift8_lt _)

theorem payload_fold_ref_lt (p : CANPacket_t) (l : List Nat) :
    ∀ c, c < 256 → l.foldl (fun crc i => ref_shift8 (crc ^^^ GET_BYTE p i)) c < 256 := by
  induction l with
  | nil => intro c hc; exact hc
  | cons i l ih =>
    intro c _
    simp only [List.foldl_cons]
    exact ih _ (ref_shift8_lt _)

theorem salt_tables_bytes (lh : Nat) : ∀ e ∈ salt_tables lh, ∀ x ∈ e.2, x < 256 := by
  intro e he
  simp only [salt_tables, List.mem_cons, List.mem_singleton, List.not_mem_nil, or_false] at he
  rcases he with h | h | h | h | h | h | h | h | h | h <;> subst h <;> intro x hx <;>
    simp at hx <;> omega

theorem salt_entry_lt (lh addr counter : Nat) : salt_entry lh addr counter < 256 := by
  unfold salt_entry
  split
  · next t ht =>
    have hmem : (addr, t) ∈ salt_tables lh := by
      have h := List.lookup_eq_some_iff.mp ht
      obtain ⟨l1, l2, h, _⟩ := h
      rw [h]
      simp
    have hb := salt_tables_bytes lh _ hmem
    rw [List.getD_eq_getElem?_getD]
    cases hq : t[counter]? with
    | none => simp
    | some v =>
      simp only [Option.getD_some]
      exact hb v (List.getElem?_mem hq)
  · decide

/-- The if-chain of the validator XORs in the entry of `salt_tables`. -/
theorem crc_apply_salt_eq (lh addr counter crc : Nat) (hc : crc < 256) :
    crc_apply_salt lh addr counter crc = crc ^^^ salt_entry lh addr counter := by
  have hlt := xor_byte_lt hc (salt_entry_lt lh addr counter)
  have key : crc_apply_salt lh addr counter crc = (crc ^^^ salt_entry lh addr counter) % 256 := by
    unfold crc_apply_salt salt_entry salt_tables
    simp only [MSG_GRA_ACC_01, MSG_MEB_EPS_01, MSG_MEB_ESP_01, MSG_MEB_ESP_03, MSG_MEB_ESP_04,
      MSG_MEB_ESP_05, MSG_MEB_MOTOR_01, MSG_MOTOR_14, MSG_MEB_ABS_01, List.lookup]
    cases addr == lh with
    | true => rfl
    | false =>
      cases addr == 299 with
      | true => rfl
      | false =>
        cases addr == 317 with
        | true => rfl
        | false =>
          cases addr == 252 with
          | true => rfl
          | false =>
            cases addr == 332 with
            | true => rfl
            | false =>
              cases addr == 258 with
              | true => rfl
              | false =>
                cases addr == 313 with
                | true => rfl
                | false =>
                  cases addr == 267 with
                  | true => rfl
                  | false =>
                    cases addr == 958 with
                    | true => rfl
                    | false =>
                      rcases Bool.eq_false_or_eq_true (addr == 522) with h | h
                      · simp only [h]
                        rfl
                      · simp only [h]
                        show crc = (crc ^^^ 0) % 256
                        rw [Nat.xor_zero, Nat.mod_eq_of_lt hc]
  rw [key, Nat.mod_eq_of_lt hlt]

theorem GET_BYTE_set_byte (p : CANPacket_t) (i v j : Nat) :
    GET_BYTE (set_byte p i v) j = if j = i then v % 256 else GET_BYTE p j := by
  unfold GET_BYTE set_byte
  simp only [List.getD_eq_getElem?_getD]
  by_cases h : j = i
  · subst h
    have hlen : j < (p.data ++ List.replicate (j + 1 - p.data.length) 0).length := by
      simp only [List.length_append, List.length_replicate]
      omega
    simp [List.getElem?_set_self hlen]
  · rw [if_neg h, List.getElem?_set_ne (Ne.symm h)]
    by_cases hj : j < p.data.length
    · rw [List.getElem?_append_left hj]
    · have hj2 : p.data.length ≤ j := Nat.le_of_not_lt hj
      rw [List.getElem?_append_right hj2, List.getElem?_eq_none hj2, List.getElem?_replicate]
      split <;> rfl

theorem ref_unshift_shift (x : Nat) (h : x < 256) : ref_unshift (ref_shift x) = x := by
  interval_cases x <;> rfl

theorem ref_shift_inj {x y : Nat} (hx : x < 256) (hy : y < 256) (h : ref_shift x = ref_shift y) :
    x = y := by
  rw [← ref_unshift_shift x hx, ← ref_unshift_shift y hy, h]

theorem ref_shift8_inj {x y : Nat} (hx : x < 256) (hy : y < 256)
    (h : ref_shift8 x = ref_shift8 y) : x = y := by
  unfold ref_shift8 at h
  have l := ref_shift_lt
  exact ref_shift_inj hx hy (ref_shift_inj (l _) (l _) (ref_shift_inj (l _) (l _)
    (ref_shift_inj (l _) (l _) (ref_shift_inj (l _) (l _) (ref_shift_inj (l _) (l _)
    (ref_shift_inj (l _) (l _) (ref_shift_inj (l _) (l _) h)))))))

theorem payload_fold_inj (p : CANPacket_t) (l : List Nat) :
    ∀ c c', c < 256 → c' < 256 →
      l.foldl (fun crc i => ref_shift8 (crc ^^^ GET_BYTE p i)) c =
        l.foldl (fun crc i => ref_shift8 (crc ^^^ GET_BYTE p i)) c' → c = c' := by
  induction l with
  | nil => intro c c' _ _ h; exact h
  | cons i l ih =>
    intro c c' hc hc' h
    simp only [List.foldl_cons] at h
    have h1 := ih _ _ (ref_shift8_lt _) (ref_shift8_lt _) h
    have h2 := ref_shift8_inj (xor_byte_lt hc (GET_BYTE_lt p i))
      (xor_byte_lt hc' (GET_BYTE_lt p i)) h1
    exact Nat.xor_left_injective h2

theorem payload_fold_congr (p q : CANPacket_t) (l : List Nat) (c : Nat)
    (h : ∀ i ∈ l, GET_BYTE p i = GET_BYTE q i) :
    l.foldl (fun crc i => ref_shift8 (crc ^^^ GET_BYTE p i)) c =
      l.foldl (fun crc i => ref_shift8 (crc ^^^ GET_BYTE q i)) c := by
  apply List.foldl_ext
  intro a b hb
  rw [h b hb]

/-- The validator with the generated table is the bitwise reference, for every frame. -/
theorem compute_crc_eq_ref (lh : Nat) (p : CANPacket_t) :
    volkswagen_meb_compute_crc lh (gen_crc_lookup_table_8 0x2F) p = crc_reference lh p := by
  have hfold := payload_fold_eq_ref p (List.range' 1 (GET_LEN p - 1)) 0xFF (by decide)
  have hlt := payload_fold_ref_lt p (List.range' 1 (GET_LEN p - 1)) 0xFF (by decide)
  have hcnt : volkswagen_meb_get_counter p = GET_BYTE p 1 &&& 0xF := by
    unfold volkswagen_meb_get_counter
    exact Nat.mod_eq_of_lt (Nat.lt_of_le_of_lt Nat.and_le_right (by decide))
  unfold volkswagen_meb_compute_crc crc_payload_loop crc_reference
  simp only [hcnt, GET_ADDR, GET_LEN] at hfold hlt ⊢
  rw [hfold, crc_apply_salt_eq _ _ _ _ hlt, lut_read_gen]
  have hx := xor_byte_lt hlt (salt_entry_lt lh p.addr (GET_BYTE p 1 &&& 0xF))
  rw [Nat.mod_eq_of_lt hx]
  have hy := ref_shift8_lt
    ((List.range' 1 (p.len - 1)).foldl (fun crc i => ref_shift8 (crc ^^^ GET_BYTE p i)) 0xFF
      ^^^ salt_entry lh p.addr (GET_BYTE p 1 &&& 0xF))
  generalize ref_shift8 _ = y at hy ⊢
  interval_cases y <;> rfl

/-- The reference reads the address, the length and the payload bytes from index 1 on. -/
theorem crc_reference_congr (lh : Nat) (p q : CANPacket_t) (haddr : p.addr = q.addr)
    (hlen : p.len = q.len) (hb : ∀ i, 1 ≤ i → GET_BYTE p i = GET_BYTE q i) :
    crc_reference lh p = crc_reference lh q := by
  unfold crc_reference
  rw [haddr, hlen, hb 1 (Nat.le_refl 1)]
  rw [payload_fold_congr p q _ _ (fun i hi => hb i (List.mem_range'_1.mp hi).1)]

/-- Changing one payload byte of index `i` with `1 <= i < len` changes the register after
the payload loop. -/
theorem payload_fold_ne (p q : CANPacket_t) (n i : Nat) (h1 : 1 ≤ i) (hi : i < n)
    (hne : GET_BYTE p i ≠ GET_BYTE q i) (hsame : ∀ j, j ≠ i → GET_BYTE p j = GET_BYTE q j) :
    (List.range' 1 (n - 1)).foldl (fun crc i => ref_shift8 (crc ^^^ GET_BYTE p i)) 0xFF ≠
      (List.range' 1 (n - 1)).foldl (fun crc i => ref_shift8 (crc ^^^ GET_BYTE q i)) 0xFF := by
  have hsplit : List.range' 1 (n - 1) =
      List.range' 1 (i - 1) ++ i :: List.range' (i + 1) (n - 1 - i) := by
    have e1 : List.range' 1 (n - 1) = List.range' 1 (i - 1) ++ List.range' i (n - i) := by
      have := List.range'_append 1 (i - 1) (n - i) 1
      rw [show 1 + 1 * (i - 1) = i by omega, show n - i + (i - 1) = n - 1 by omega] at this
      exact this.symm
    have e2 : List.range' i (n - i) = i :: List.range' (i + 1) (n - 1 - i) := by
      rw [show n - i = (n - 1 - i) + 1 by omega]
      exact List.range'_succ _ _ _
    rw [e1, e2]
  rw [hsplit]
  simp only [List.foldl_append, List.foldl_cons]
  have hpre : (List.range' 1 (i - 1)).foldl (fun crc i => ref_shift8 (crc ^^^ GET_BYTE p i)) 0xFF =
      (List.range' 1 (i - 1)).foldl (fun crc i => ref_shift8 (crc ^^^ GET_BYTE q i)) 0xFF := by
    apply payload_fold_congr
    intro j hj
    have := (List.mem_range'_1.mp hj).2
    exact hsame j (by omega)
  have hclt := payload_fold_ref_lt q (List.range' 1 (i - 1)) 0xFF (by decide)
  rw [hpre]
  generalize (List.range' 1 (i - 1)).foldl (fun crc i => ref_shift8 (crc ^^^ GET_BYTE q i)) 0xFF
    = c at hclt ⊢
  have hsuf : ∀ x, (List.range' (i + 1) (n - 1 - i)).foldl
      (fun crc i => ref_shift8 (crc ^^^ GET_BYTE p i)) x =
      (List.range' (i + 1) (n - 1 - i)).foldl (fun crc i => ref_shift8 (crc ^^^ GET_BYTE q i)) x := by
    intro x
    apply payload_fold_congr
    intro j hj
    have := (List.mem_range'_1.mp hj).1
    exact hsame j (by omega)
  rw [hsuf]
  intro heq
  have h2 := payload_fold_inj q _ _ _ (ref_shift8_lt _) (ref_shift8_lt _) heq
  have h3 := ref_shift8_inj (xor_byte_lt hclt (GET_BYTE_lt p i))
    (xor_byte_lt hclt (GET_BYTE_lt q i)) h2
  exact hne (Nat.xor_right_injective h3)

theorem init_table (lh : Nat) (allow_debug long_param : Bool) (s : SafetyState) :
    (volkswagen_meb_init lh allow_debug long_param s).2.1 = gen_crc_lookup_table_8 0x2F := rfl

theorem set_byte_addr_len (p : CANPacket_t) (i v : Nat) :
    (set_byte p i v).addr = p.addr ∧ (set_byte p i v).len = p.len := ⟨rfl, rfl⟩

theorem crc_reference_set_byte_zero (lh : Nat) (p : CANPacket_t) (v : Nat) :
    crc_reference lh (set_byte p 0 v) = crc_reference lh p := by
  refine crc_reference_congr lh (set_byte p 0 v) p rfl rfl (fun i hi => ?_)
  rw [GET_BYTE_set_byte, if_neg (by omega)]

theorem crc_reference_lt (lh : Nat) (p : CANPacket_t) : crc_reference lh p < 256 := by
  unfold crc_reference
  exact Nat.lt_of_le_of_lt (Nat.sub_le _ _) (by decide)

/-! ## Integrity validator -/

/-- C11. For a frame with a salted address, the table-driven `volkswagen_meb_compute_crc`,
reading the table `volkswagen_meb_init` builds with `gen_crc_lookup_table_8(0x2F, ...)`,
equals the bitwise reference (start at 0xFF; per byte of index `1 .. len - 1` XOR and eight
MSB-first shift steps with polynomial 0x2F; XOR the salt the counter selects; eight more
steps; complement), whatever the counter in byte 1; and byte 0 does not enter it. -/
theorem compute_crc_matches_reference (lh : Nat) (allow_debug long_param : Bool)
    (s : SafetyState) (p : CANPacket_t) (_hs : has_salt lh (GET_ADDR p) = true) :
    volkswagen_meb_compute_crc lh (volkswagen_meb_init lh allow_debug long_param s).2.1 p =
      crc_reference lh p ∧
    volkswagen_meb_get_counter p = GET_BYTE p 1 &&& 0xF ∧
    volkswagen_meb_get_counter p < 16 ∧
    ∀ v, volkswagen_meb_compute_crc lh (volkswagen_meb_init lh allow_debug long_param s).2.1
        (set_byte p 0 v) =
      volkswagen_meb_compute_crc lh (volkswagen_meb_init lh allow_debug long_param s).2.1 p := by
  have hlt : GET_BYTE p 1 &&& 0xF < 16 := Nat.lt_of_le_of_lt Nat.and_le_right (by decide)
  have hcnt : volkswagen_meb_get_counter p = GET_BYTE p 1 &&& 0xF :=
    Nat.mod_eq_of_lt (Nat.lt_trans hlt (by decide))
  refine ⟨?_, hcnt, hcnt ▸ hlt, ?_⟩
  · rw [init_table, compute_crc_eq_ref]
  · intro v
    rw [init_table, compute_crc_eq_ref, compute_crc_eq_ref, crc_reference_set_byte_zero]

theorem compute_crc_matches_reference_witness :
    has_salt 0x9F (GET_ADDR (frame_of 0x12B 8 [0x55, 0x03, 1, 2, 3, 4, 5, 6])) = true ∧
    volkswagen_meb_compute_crc 0x9F (volkswagen_meb_init 0x9F false false state_after_init).2.1
        (frame_of 0x12B 8 [0x55, 0x03, 1, 2, 3, 4, 5, 6]) =
      crc_reference 0x9F (frame_of 0x12B 8 [0x55, 0x03, 1, 2, 3, 4, 5, 6]) :=
  ⟨by decide, (compute_crc_matches_reference 0x9F false false state_after_init
    (frame_of 0x12B 8 [0x55, 0x03, 1, 2, 3, 4, 5, 6]) (by decide)).1⟩

/-- C12 as stated fails. The GRA_ACC_01 frame of length 8 with all payload bytes zero and
the same frame with byte 1 replaced by 0x42 (counter 2 instead of 0) have the same
integrity code, 189. -/
theorem compute_crc_collision_on_counter_byte :
    has_salt 0x9F (GET_ADDR (frame_of 0x12B 8 [])) = true ∧
    1 ≤ 1 ∧ 1 < GET_LEN (frame_of 0x12B 8 []) ∧ 0x42 < 256 ∧
    0x42 ≠ GET_BYTE (frame_of 0x12B 8 []) 1 ∧
    volkswagen_meb_compute_crc 0x9F (gen_crc_lookup_table_8 0x2F)
        (set_byte (frame_of 0x12B 8 []) 1 0x42) = 189 ∧
    volkswagen_meb_compute_crc 0x9F (gen_crc_lookup_table_8 0x2F) (frame_of 0x12B 8 []) = 189 := by
  decide

/-- C12, amended. For a frame with a salted address and length `len`, an index `i` with
`1 <= i < len` and a byte value `v` different from the frame's byte `i` and, when `i` is 1,
with the same low nibble (the counter, hence the salt, is unchanged), the integrity code
of the frame with byte `i` replaced by `v` differs from that of the original frame. -/
theorem compute_crc_detects_byte_change (lh : Nat) (p : CANPacket_t) (i v : Nat)
    (_hs : has_salt lh (GET_ADDR p) = true) (h1 : 1 ≤ i) (hi : i < GET_LEN p) (hv : v < 256)
    (hne : v ≠ GET_BYTE p i) (hcnt : i = 1 → v &&& 0xF = GET_BYTE p 1 &&& 0xF) :
    volkswagen_meb_compute_crc lh (gen_crc_lookup_table_8 0x2F) (set_byte p i v) ≠
      volkswagen_meb_compute_crc lh (gen_crc_lookup_table_8 0x2F) p := by
  rw [compute_crc_eq_ref, compute_crc_eq_ref]
  have hbi : GET_BYTE (set_byte p i v) i = v := by
    rw [GET_BYTE_set_byte, if_pos rfl, Nat.mod_eq_of_lt hv]
  have hsame : ∀ j, j ≠ i → GET_BYTE (set_byte p i v) j = GET_BYTE p j := by
    intro j hj
    rw [GET_BYTE_set_byte, if_neg hj]
  have hcounter : GET_BYTE (set_byte p i v) 1 &&& 0xF = GET_BYTE p 1 &&& 0xF := by
    by_cases h : i = 1
    · subst h
      rw [hbi]
      exact hcnt rfl
    · rw [hsame 1 (Ne.symm h)]
  have hfold := payload_fold_ne (set_byte p i v) p (GET_LEN p) i h1 hi
    (by rw [hbi]; exact hne) hsame
  have hl1 := payload_fold_ref_lt (set_byte p i v) (List.range' 1 (GET_LEN p - 1)) 0xFF
    (by decide)
  have hl2 := payload_fold_ref_lt p (List.range' 1 (GET_LEN p - 1)) 0xFF (by decide)
  unfold crc_reference
  rw [hcounter, (set_byte_addr_len p i v).1, (set_byte_addr_len p i v).2]
  simp only [GET_LEN] at hfold hl1 hl2
  have hs := salt_entry_lt lh p.addr (GET_BYTE p 1 &&& 0xF)
  dsimp only
  intro heq
  have hA := ref_shift8_lt ((List.range' 1 (p.len - 1)).foldl
    (fun crc j => ref_shift8 (crc ^^^ GET_BYTE (set_byte p i v) j)) 0xFF ^^^
      salt_entry lh p.addr (GET_BYTE p 1 &&& 0xF))
  have hB := ref_shift8_lt ((List.range' 1 (p.len - 1)).foldl
    (fun crc j => ref_shift8 (crc ^^^ GET_BYTE p j)) 0xFF ^^^
      salt_entry lh p.addr (GET_BYTE p 1 &&& 0xF))
  have h8 : ref_shift8 ((List.range' 1 (p.len - 1)).foldl
      (fun crc j => ref_shift8 (crc ^^^ GET_BYTE (set_byte p i v) j)) 0xFF ^^^
        salt_entry lh p.addr (GET_BYTE p 1 &&& 0xF)) =
      ref_shift8 ((List.range' 1 (p.len - 1)).foldl
        (fun crc j => ref_shift8 (crc ^^^ GET_BYTE p j)) 0xFF ^^^
          salt_entry lh p.addr (GET_BYTE p 1 &&& 0xF)) := by
    omega
  have hx := ref_shift8_inj (xor_byte_lt hl1 hs) (xor_byte_lt hl2 hs) h8
  exact hfold (Nat.xor_left_injective hx)

theorem compute_crc_detects_byte_change_witness :
    volkswagen_meb_compute_crc 0x9F (gen_crc_lookup_table_8 0x2F)
        (set_byte (frame_of 0x12B 8 []) 1 0x40) ≠
      volkswagen_meb_compute_crc 0x9F (gen_crc_lookup_table_8 0x2F) (frame_of 0x12B 8 []) :=
  compute_crc_detects_byte_change 0x9F (frame_of 0x12B 8 []) 1 0x40 (by decide) (by decide)
    (by decide) (by decide) (by decide) (fun _ => by decide)

/-- The extent of the unsalted branch (lines 123-125): for an address without a salt table
the validator returns the complement of the plain CRC of bytes `1 .. len - 1`, independent
of byte 0, so every payload has one value of byte 0 for which the comparison with
`volkswagen_meb_get_checksum` passes. -/
theorem compute_crc_unsalted (lh : Nat) (p : CANPacket_t)
    (hs : has_salt lh (GET_ADDR p) = false) :
    volkswagen_meb_compute_crc lh (gen_crc_lookup_table_8 0x2F) p =
      255 - ref_shift8 ((List.range' 1 (GET_LEN p - 1)).foldl
        (fun crc i => ref_shift8 (crc ^^^ GET_BYTE p i)) 0xFF) ∧
    volkswagen_meb_compute_crc lh (gen_crc_lookup_table_8 0x2F) p < 256 ∧
    ∀ v, v < 256 →
      (volkswagen_meb_compute_crc lh (gen_crc_lookup_table_8 0x2F) (set_byte p 0 v) =
          volkswagen_meb_get_checksum (set_byte p 0 v) ↔
        v = volkswagen_meb_compute_crc lh (gen_crc_lookup_table_8 0x2F) p) := by
  have hsalt : ∀ c, salt_entry lh p.addr c = 0 := by
    intro c
    unfold has_salt GET_ADDR at hs
    unfold salt_entry
    cases h : (salt_tables lh).lookup p.addr with
    | none => rfl
    | some t => rw [h] at hs; exact absurd hs (by simp)
  refine ⟨?_, ?_, ?_⟩
  · rw [compute_crc_eq_ref]
    unfold crc_reference
    simp only [hsalt, Nat.xor_zero, GET_LEN]
  · rw [compute_crc_eq_ref]
    exact crc_reference_lt lh p
  · intro v hv
    rw [compute_crc_eq_ref, compute_crc_eq_ref, crc_reference_set_byte_zero]
    unfold volkswagen_meb_get_checksum
    rw [GET_BYTE_set_byte, if_pos rfl, Nat.mod_eq_of_lt hv]
    exact eq_comm


/-! ## Inbound state tracker: auxiliary facts -/

theorem rx_hook_on_bus0 (k : RxCollaborators) (s : SafetyState) (p : CANPacket_t)
    (hbus : GET_BUS p = 0) :
    volkswagen_meb_rx_hook k s p =
      k.generic_rx_checks (GET_ADDR p == MSG_HCA_03) (rx_blocks k s p) := by
  simp [volkswagen_meb_rx_hook, hbus]

theorem rx_hook_off_bus0 (k : RxCollaborators) (s : SafetyState) (p : CANPacket_t)
    (hbus : GET_BUS p ≠ 0) : volkswagen_meb_rx_hook k s p = s := by
  simp [volkswagen_meb_rx_hook, hbus]

theorem rx_blocks_on_motor_01 (k : RxCollaborators) (s : SafetyState) (p : CANPacket_t)
    (h : GET_ADDR p = MSG_MEB_MOTOR_01) : rx_blocks k s p = rx_meb_motor_01 k s p := by
  simp [rx_blocks, h, MSG_MEB_MOTOR_01, MSG_MEB_ESP_01, MSG_MEB_ESP_05, MSG_MEB_ESP_04,
    MSG_GRA_ACC_01, MSG_MOTOR_14, MSG_MEB_ESP_03]

theorem rx_blocks_on_gra_acc_01 (k : RxCollaborators) (s : SafetyState) (p : CANPacket_t)
    (h : GET_ADDR p = MSG_GRA_ACC_01) : rx_blocks k s p = rx_gra_acc_01 s p := by
  simp [rx_blocks, h, MSG_MEB_MOTOR_01, MSG_MEB_ESP_01, MSG_MEB_ESP_05, MSG_MEB_ESP_04,
    MSG_GRA_ACC_01, MSG_MOTOR_14, MSG_MEB_ESP_03]

theorem rx_blocks_on_esp_01 (k : RxCollaborators) (s : SafetyState) (p : CANPacket_t)
    (h : GET_ADDR p = MSG_MEB_ESP_01) : rx_blocks k s p = rx_meb_esp_01 k s p := by
  simp [rx_blocks, h, MSG_MEB_MOTOR_01, MSG_MEB_ESP_01, MSG_MEB_ESP_05, MSG_MEB_ESP_04,
    MSG_GRA_ACC_01, MSG_MOTOR_14, MSG_MEB_ESP_03]

theorem rx_blocks_on_esp_05 (k : RxCollaborators) (s : SafetyState) (p : CANPacket_t)
    (h : GET_ADDR p = MSG_MEB_ESP_05) :
    rx_blocks k s p = { s with volkswagen_esp_hold_confirmation := GET_BIT p 35 } := by
  simp [rx_blocks, h, MSG_MEB_MOTOR_01, MSG_MEB_ESP_01, MSG_MEB_ESP_05, MSG_MEB_ESP_04,
    MSG_GRA_ACC_01, MSG_MOTOR_14, MSG_MEB_ESP_03]

theorem rx_blocks_on_esp_04 (k : RxCollaborators) (s : SafetyState) (p : CANPacket_t)
    (h : GET_ADDR p = MSG_MEB_ESP_04) :
    rx_blocks k s p = k.update_angle_meas (esp_04_yaw_raw p) (GET_BIT p 54) s := by
  simp [rx_blocks, h, MSG_MEB_MOTOR_01, MSG_MEB_ESP_01, MSG_MEB_ESP_05, MSG_MEB_ESP_04,
    MSG_GRA_ACC_01, MSG_MOTOR_14, MSG_MEB_ESP_03]

theorem rx_blocks_on_motor_14 (k : RxCollaborators) (s : SafetyState) (p : CANPacket_t)
    (h : GET_ADDR p = MSG_MOTOR_14) :
    rx_blocks k s p = { s with brake_pressed := GET_BIT p 28 } := by
  simp [rx_blocks, h, MSG_MEB_MOTOR_01, MSG_MEB_ESP_01, MSG_MEB_ESP_05, MSG_MEB_ESP_04,
    MSG_GRA_ACC_01, MSG_MOTOR_14, MSG_MEB_ESP_03]

theorem rx_blocks_on_esp_03 (k : RxCollaborators) (s : SafetyState) (p : CANPacket_t)
    (h : GET_ADDR p = MSG_MEB_ESP_03) :
    rx_blocks k s p = { s with gas_pressed := ((GET_BYTE p 21 : Nat) : Int) - 37 != 0 } := by
  simp [rx_blocks, h, MSG_MEB_MOTOR_01, MSG_MEB_ESP_01, MSG_MEB_ESP_05, MSG_MEB_ESP_04,
    MSG_GRA_ACC_01, MSG_MOTOR_14, MSG_MEB_ESP_03]

theorem rx_blocks_on_other (k : RxCollaborators) (s : SafetyState) (p : CANPacket_t)
    (h1 : GET_ADDR p ≠ MSG_MEB_ESP_01) (h2 : GET_ADDR p ≠ MSG_MEB_ESP_05)
    (h3 : GET_ADDR p ≠ MSG_MEB_ESP_04) (h4 : GET_ADDR p ≠ MSG_MEB_MOTOR_01)
    (h5 : GET_ADDR p ≠ MSG_GRA_ACC_01) (h6 : GET_ADDR p ≠ MSG_MOTOR_14)
    (h7 : GET_ADDR p ≠ MSG_MEB_ESP_03) : rx_blocks k s p = s := by
  simp [rx_blocks, h1, h2, h3, h4, h5, h6, h7]

/-- Outside the GRA_ACC_01 block the receive hook's own code writes neither authorisation
flag. -/
theorem rx_blocks_flags_off_gra (k : RxCollaborators) (s : SafetyState) (p : CANPacket_t)
    (hk1 : keeps k (fun t => t.controls_allowed))
    (hk2 : keeps k (fun t => t.controls_allowed_long)) (h : GET_ADDR p ≠ MSG_GRA_ACC_01) :
    (rx_blocks k s p).controls_allowed = s.controls_allowed ∧
    (rx_blocks k s p).controls_allowed_long = s.controls_allowed_long := by
  obtain ⟨a1, a2, a3, a4, _⟩ := hk1
  obtain ⟨b1, b2, b3, b4, _⟩ := hk2
  beta_reduce at a1 a2 a3 a4 b1 b2 b3 b4
  by_cases h1 : GET_ADDR p = MSG_MEB_ESP_01
  · rw [rx_blocks_on_esp_01 k s p h1]
    simp [rx_meb_esp_01, a1, b1]
  by_cases h2 : GET_ADDR p = MSG_MEB_ESP_05
  · rw [rx_blocks_on_esp_05 k s p h2]
    exact ⟨rfl, rfl⟩
  by_cases h3 : GET_ADDR p = MSG_MEB_ESP_04
  · rw [rx_blocks_on_esp_04 k s p h3]
    exact ⟨a2 _ _ _, b2 _ _ _⟩
  by_cases h4 : GET_ADDR p = MSG_MEB_MOTOR_01
  · rw [rx_blocks_on_motor_01 k s p h4]
    unfold rx_meb_motor_01
    simp only [a4, b4]
    constructor <;> split_ifs <;> simp [a3, b3]
  by_cases h6 : GET_ADDR p = MSG_MOTOR_14
  · rw [rx_blocks_on_motor_14 k s p h6]
    exact ⟨rfl, rfl⟩
  by_cases h7 : GET_ADDR p = MSG_MEB_ESP_03
  · rw [rx_blocks_on_esp_03 k s p h7]
    exact ⟨rfl, rfl⟩
  rw [rx_blocks_on_other k s p h1 h2 h3 h4 h h6 h7]
  exact ⟨rfl, rfl⟩

theorem motor_01_status_eq (p : CANPacket_t) :
    motor_01_acc_status p = GET_BYTE p 11 &&& 0x07 := by
  simp [motor_01_acc_status]

theorem rx_hook_motor_01_main_on (k : RxCollaborators) (hk : keeps k (fun t => t.acc_main_on))
    (s : SafetyState) (p : CANPacket_t) (haddr : GET_ADDR p = MSG_MEB_MOTOR_01)
    (hbus : GET_BUS p = 0) :
    (volkswagen_meb_rx_hook k s p).acc_main_on =
      (motor_01_cruise_engaged p || motor_01_acc_status p == 2) := by
  obtain ⟨_, _, a3, a4, a5⟩ := hk
  beta_reduce at a3 a4 a5
  rw [rx_hook_on_bus0 k s p hbus, rx_blocks_on_motor_01 k s p haddr, a5]
  unfold rx_meb_motor_01
  simp only [a4]
  split_ifs <;> simp [a3]

theorem rx_run_motor_01_main_on (k : RxCollaborators) (hk : keeps k (fun t => t.acc_main_on))
    (ps : List CANPacket_t) :
    ∀ s, (∀ p ∈ ps, GET_ADDR p = MSG_MEB_MOTOR_01 ∧ GET_BUS p = 0) →
      (rx_run k s ps).map (fun t => t.acc_main_on) =
        ps.map (fun p => motor_01_cruise_engaged p || motor_01_acc_status p == 2) := by
  induction ps with
  | nil => intro s _; rfl
  | cons p ps ih =>
    intro s h
    have hp := h p (List.mem_cons_self _ _)
    simp only [rx_run, List.map_cons]
    rw [rx_hook_motor_01_main_on k hk s p hp.1 hp.2,
      ih _ (fun q hq => h q (List.mem_cons_of_mem _ hq))]

theorem recording_keeps_main_on : keeps recording_collaborators (fun t => t.acc_main_on) :=
  ⟨fun _ _ => rfl, fun _ _ _ => rfl, fun _ _ => rfl, fun _ _ => rfl, fun _ _ => rfl⟩

theorem idle_keeps (f : SafetyState → Bool) : keeps idle_collaborators f :=
  ⟨fun _ _ => rfl, fun _ _ _ => rfl, fun _ _ => rfl, fun _ _ => rfl, fun _ _ => rfl⟩

theorem status_cases (x : Nat) :
    x &&& 0x07 = 0 ∨ x &&& 0x07 = 1 ∨ x &&& 0x07 = 2 ∨ x &&& 0x07 = 3 ∨ x &&& 0x07 = 4 ∨
      x &&& 0x07 = 5 ∨ x &&& 0x07 = 6 ∨ x &&& 0x07 = 7 := by
  have h : x &&& 0x07 ≤ 7 := Nat.and_le_right
  omega

theorem gra_falling_edge_iff (s : SafetyState) (p : CANPacket_t) :
    gra_falling_edge s p = true ↔
      ((s.volkswagen_set_button_prev = true ∧ GET_BIT p 16 = false) ∨
        (s.volkswagen_resume_button_prev = true ∧ GET_BIT p 19 = false)) := by
  simp [gra_falling_edge]

theorem rx_gra_buttons_flags (s : SafetyState) (p : CANPacket_t) :
    (rx_gra_buttons s p).controls_allowed =
        (if s.volkswagen_longitudinal && gra_falling_edge s p then s.acc_main_on
          else s.controls_allowed) ∧
      (rx_gra_buttons s p).controls_allowed_long =
        (if s.volkswagen_longitudinal && gra_falling_edge s p then s.acc_main_on
          else s.controls_allowed_long) := by
  unfold rx_gra_buttons gra_falling_edge
  cases s.volkswagen_longitudinal
  · exact ⟨rfl, rfl⟩
  · constructor <;> simp only [Bool.true_and, if_true] <;> split <;> rfl

theorem rx_gra_cancel_flags (t : SafetyState) (p : CANPacket_t) :
    (rx_gra_cancel t p).controls_allowed = t.controls_allowed ∧
      (rx_gra_cancel t p).controls_allowed_long = (!GET_BIT p 13 && t.controls_allowed_long) := by
  unfold rx_gra_cancel
  cases GET_BIT p 13 <;> simp

/-! ## Cruise state and buttons -/

/-- C14. For an MEB_MOTOR_01 frame on bus 0 with status = byte 11 and 0x07, and framework
functions that do not write `acc_main_on`: the local `cruise_engaged` is true iff the
status is 3, 4 or 5; in stock mode it is the value handed to `pcm_cruise_check`;
`acc_main_on` after the hook is true iff the status is 2, 3, 4 or 5; engaged implies
main-on; and for a sequence of such frames the `acc_main_on` values after each frame are
those the statuses give. -/
theorem rx_hook_motor_01_cruise_state (k : RxCollaborators)
    (hk : keeps k (fun t => t.acc_main_on)) (s : SafetyState) (p : CANPacket_t)
    (ps : List CANPacket_t) (haddr : GET_ADDR p = MSG_MEB_MOTOR_01) (hbus : GET_BUS p = 0)
    (hps : ∀ q ∈ ps, GET_ADDR q = MSG_MEB_MOTOR_01 ∧ GET_BUS q = 0) :
    (motor_01_cruise_engaged p = true ↔
      (GET_BYTE p 11 &&& 0x07 = 3 ∨ GET_BYTE p 11 &&& 0x07 = 4 ∨ GET_BYTE p 11 &&& 0x07 = 5)) ∧
    (s.volkswagen_longitudinal = false →
      rx_blocks k s p =
        k.mads_acc_main_check
          (k.pcm_cruise_check (motor_01_cruise_engaged p)
            { s with acc_main_on :=
              motor_01_cruise_engaged p || motor_01_acc_status p == 2 }).acc_main_on
          (k.pcm_cruise_check (motor_01_cruise_engaged p)
            { s with acc_main_on :=
              motor_01_cruise_engaged p || motor_01_acc_status p == 2 })) ∧
    ((volkswagen_meb_rx_hook k s p).acc_main_on = true ↔
      (GET_BYTE p 11 &&& 0x07 = 2 ∨ GET_BYTE p 11 &&& 0x07 = 3 ∨ GET_BYTE p 11 &&& 0x07 = 4 ∨
        GET_BYTE p 11 &&& 0x07 = 5)) ∧
    (motor_01_cruise_engaged p = true → (volkswagen_meb_rx_hook k s p).acc_main_on = true) ∧
    (rx_run k s ps).map (fun t => t.acc_main_on) =
      ps.map (fun q => decide (GET_BYTE q 11 &&& 0x07 = 2 ∨ GET_BYTE q 11 &&& 0x07 = 3 ∨
        GET_BYTE q 11 &&& 0x07 = 4 ∨ GET_BYTE q 11 &&& 0x07 = 5)) ∧
    ps.map motor_01_cruise_engaged =
      ps.map (fun q => decide (GET_BYTE q 11 &&& 0x07 = 3 ∨ GET_BYTE q 11 &&& 0x07 = 4 ∨
        GET_BYTE q 11 &&& 0x07 = 5)) := by
  have heng : ∀ q : CANPacket_t, motor_01_cruise_engaged q =
      decide (GET_BYTE q 11 &&& 0x07 = 3 ∨ GET_BYTE q 11 &&& 0x07 = 4 ∨
        GET_BYTE q 11 &&& 0x07 = 5) := by
    intro q
    simp only [motor_01_cruise_engaged, motor_01_status_eq]
    rcases status_cases (GET_BYTE q 11) with h | h | h | h | h | h | h | h <;> simp [h]
  have hmain : ∀ q : CANPacket_t, (motor_01_cruise_engaged q || motor_01_acc_status q == 2) =
      decide (GET_BYTE q 11 &&& 0x07 = 2 ∨ GET_BYTE q 11 &&& 0x07 = 3 ∨
        GET_BYTE q 11 &&& 0x07 = 4 ∨ GET_BYTE q 11 &&& 0x07 = 5) := by
    intro q
    rw [heng q, motor_01_status_eq]
    rcases status_cases (GET_BYTE q 11) with h | h | h | h | h | h | h | h <;> simp [h]
  have hafter := rx_hook_motor_01_main_on k hk s p haddr hbus
  refine ⟨?_, ?_, ?_, ?_, ?_, ?_⟩
  · rw [heng p]; simp
  · intro hl
    rw [rx_blocks_on_motor_01 k s p haddr]
    simp [rx_meb_motor_01, hl]
  · rw [hafter, hmain p]; simp
  · intro he
    rw [hafter, he]; rfl
  · rw [rx_run_motor_01_main_on k hk ps s hps]
    exact List.map_congr_left (fun q _ => hmain q)
  · exact List.map_congr_left (fun q _ => heng q)

theorem rx_hook_motor_01_cruise_state_witness :
    (rx_run recording_collaborators state_after_init
        [motor_frame 0, motor_frame 2, motor_frame 3, motor_frame 0]).map
      (fun t => t.acc_main_on) = [false, true, true, false] ∧
    (rx_run recording_collaborators state_after_init
        [motor_frame 0, motor_frame 2, motor_frame 3, motor_frame 0]).map
      (fun t => t.cruise_engaged_prev) = [false, false, true, false] ∧
    [motor_frame 0, motor_frame 2, motor_frame 3, motor_frame 0].map motor_01_cruise_engaged =
      [false, false, true, false] :=
  ⟨((rx_hook_motor_01_cruise_state recording_collaborators recording_keeps_main_on
      state_after_init (motor_frame 0)
      [motor_frame 0, motor_frame 2, motor_frame 3, motor_frame 0] rfl rfl
      (by decide)).2.2.2.2.1).trans (by decide),
    by decide, by decide⟩

/-- C15. In longitudinal mode, for a GRA_ACC_01 frame on bus 0 showing a falling edge of set
(previous level true, bit 16 clear) or of resume (previous level true, bit 19 clear), with
`acc_main_on` true and the cancel bit 13 clear: the state the button handling leaves (the
one handed to `generic_rx_checks`) has `controls_allowed` and `controls_allowed_long` true
and remembers the frame's bits 16 and 19 as the set and resume levels. -/
theorem rx_hook_buttons_engage (k : RxCollaborators) (s : SafetyState) (p : CANPacket_t)
    (hlong : s.volkswagen_longitudinal = true) (haddr : GET_ADDR p = MSG_GRA_ACC_01)
    (hbus : GET_BUS p = 0)
    (hedge : (s.volkswagen_set_button_prev = true ∧ GET_BIT p 16 = false) ∨
      (s.volkswagen_resume_button_prev = true ∧ GET_BIT p 19 = false))
    (hmain : s.acc_main_on = true) (hcancel : GET_BIT p 13 = false) :
    volkswagen_meb_rx_hook k s p = k.generic_rx_checks false (rx_blocks k s p) ∧
    (rx_blocks k s p).controls_allowed = true ∧
    (rx_blocks k s p).controls_allowed_long = true ∧
    (rx_blocks k s p).volkswagen_set_button_prev = GET_BIT p 16 ∧
    (rx_blocks k s p).volkswagen_resume_button_prev = GET_BIT p 19 := by
  refine ⟨?_, ?_⟩
  · rw [rx_hook_on_bus0 k s p hbus, haddr]
    rfl
  · rw [rx_blocks_on_gra_acc_01 k s p haddr]
    rcases hedge with ⟨h1, h2⟩ | ⟨h1, h2⟩ <;>
      simp [rx_gra_acc_01, rx_gra_cancel, rx_gra_buttons, hlong, hmain, hcancel, h1, h2]

theorem rx_hook_buttons_engage_witness :
    (rx_blocks idle_collaborators buttons_held_state (gra_frame 0 0)).controls_allowed = true ∧
    (rx_blocks idle_collaborators buttons_held_state (gra_frame 0 0)).controls_allowed_long
      = true :=
  ⟨(rx_hook_buttons_engage idle_collaborators buttons_held_state (gra_frame 0 0) rfl rfl rfl
      (Or.inl ⟨rfl, rfl⟩) rfl rfl).2.1,
    (rx_hook_buttons_engage idle_collaborators buttons_held_state (gra_frame 0 0) rfl rfl rfl
      (Or.inl ⟨rfl, rfl⟩) rfl rfl).2.2.1⟩

/-- C16. For every state and both modes, a GRA_ACC_01 frame on bus 0 with the cancel bit 13
set leaves `controls_allowed_long` false after the button handling; the cancel handling
does not write `controls_allowed`, which is what the set and resume handling left (the old
value in stock mode); and when the same frame shows a set or resume falling edge in
longitudinal mode with the main switch on, `controls_allowed` ends true and
`controls_allowed_long` ends false. -/
theorem rx_hook_cancel_clears_long (k : RxCollaborators) (s : SafetyState) (p : CANPacket_t)
    (haddr : GET_ADDR p = MSG_GRA_ACC_01) (hbus : GET_BUS p = 0)
    (hcancel : GET_BIT p 13 = true) :
    volkswagen_meb_rx_hook k s p = k.generic_rx_checks false (rx_blocks k s p) ∧
    rx_blocks k s p = rx_gra_cancel (rx_gra_buttons s p) p ∧
    (rx_blocks k s p).controls_allowed_long = false ∧
    (∀ t, (rx_gra_cancel t p).controls_allowed = t.controls_allowed) ∧
    (rx_blocks k s p).controls_allowed = (rx_gra_buttons s p).controls_allowed ∧
    (s.volkswagen_longitudinal = false →
      (rx_blocks k s p).controls_allowed = s.controls_allowed) ∧
    (s.volkswagen_longitudinal = true →
      ((s.volkswagen_set_button_prev = true ∧ GET_BIT p 16 = false) ∨
        (s.volkswagen_resume_button_prev = true ∧ GET_BIT p 19 = false)) →
      s.acc_main_on = true →
      (rx_blocks k s p).controls_allowed = true ∧
        (rx_blocks k s p).controls_allowed_long = false) := by
  have hblocks := rx_blocks_on_gra_acc_01 k s p haddr
  refine ⟨?_, hblocks, ?_, ?_, ?_, ?_, ?_⟩
  · rw [rx_hook_on_bus0 k s p hbus, haddr]
    rfl
  · rw [hblocks]
    simp [rx_gra_acc_01, rx_gra_cancel, hcancel]
  · intro t
    simp [rx_gra_cancel, hcancel]
  · rw [hblocks]
    simp [rx_gra_acc_01, rx_gra_cancel, hcancel]
  · intro hl
    rw [hblocks]
    simp [rx_gra_acc_01, rx_gra_cancel, rx_gra_buttons, hcancel, hl]
  · intro hl hedge hmain
    rw [hblocks]
    rcases hedge with ⟨h1, h2⟩ | ⟨h1, h2⟩ <;>
      simp [rx_gra_acc_01, rx_gra_cancel, rx_gra_buttons, hl, hmain, hcancel, h1, h2]

theorem rx_hook_cancel_clears_long_witness :
    (rx_blocks idle_collaborators { buttons_held_state with controls_allowed_long := true }
      (gra_frame 0x20 0)).controls_allowed = true ∧
    (rx_blocks idle_collaborators { buttons_held_state with controls_allowed_long := true }
      (gra_frame 0x20 0)).controls_allowed_long = false :=
  (rx_hook_cancel_clears_long idle_collaborators
    { buttons_held_state with controls_allowed_long := true }
    (gra_frame 0x20 0) rfl rfl rfl).2.2.2.2.2.2 rfl (Or.inr ⟨rfl, rfl⟩) rfl

/-- C17. The profile's own code never sets an authorisation flag implicitly. The transmit
hook and `volkswagen_meb_init` leave `controls_allowed` and `controls_allowed_long` as they
are (the forwarding hook has no access to the state); a received frame of a bus other than
0 changes no state; and with framework functions that do not write the two flags, the
receive hook turns either flag from false to true only in longitudinal mode, for a
GRA_ACC_01 frame on bus 0 showing a falling edge of set or resume against the remembered
level, with `acc_main_on` true. -/
theorem authorisation_only_by_button_edge (c : Collaborators) (k : RxCollaborators)
    (lh : Nat) (allow_debug long_param : Bool) (s : SafetyState) (p : CANPacket_t)
    (hk1 : keeps k (fun t => t.controls_allowed))
    (hk2 : keeps k (fun t => t.controls_allowed_long)) :
    (volkswagen_meb_tx_hook c s p).2.controls_allowed = s.controls_allowed ∧
    (volkswagen_meb_tx_hook c s p).2.controls_allowed_long = s.controls_allowed_long ∧
    (volkswagen_meb_init lh allow_debug long_param s).1.controls_allowed = s.controls_allowed ∧
    (volkswagen_meb_init lh allow_debug long_param s).1.controls_allowed_long =
      s.controls_allowed_long ∧
    (GET_BUS p ≠ 0 → volkswagen_meb_rx_hook k s p = s) ∧
    (((s.controls_allowed = false ∧ (volkswagen_meb_rx_hook k s p).controls_allowed = true) ∨
        (s.controls_allowed_long = false ∧
          (volkswagen_meb_rx_hook k s p).controls_allowed_long = true)) →
      s.volkswagen_longitudinal = true ∧ GET_ADDR p = MSG_GRA_ACC_01 ∧ GET_BUS p = 0 ∧
        ((s.volkswagen_set_button_prev = true ∧ GET_BIT p 16 = false) ∨
          (s.volkswagen_resume_button_prev = true ∧ GET_BIT p 19 = false)) ∧
        s.acc_main_on = true) := by
  have htx : (volkswagen_meb_tx_hook c s p).2.controls_allowed = s.controls_allowed ∧
      (volkswagen_meb_tx_hook c s p).2.controls_allowed_long = s.controls_allowed_long := by
    unfold volkswagen_meb_tx_hook
    by_cases h : GET_ADDR p = MSG_HCA_03
    · simp [h, tx_hca_03]
    · simp [h]
  have hinit : (volkswagen_meb_init lh allow_debug long_param s).1.controls_allowed =
        s.controls_allowed ∧
      (volkswagen_meb_init lh allow_debug long_param s).1.controls_allowed_long =
        s.controls_allowed_long := by
    unfold volkswagen_meb_init
    cases allow_debug <;> exact ⟨rfl, rfl⟩
  refine ⟨htx.1, htx.2, hinit.1, hinit.2, rx_hook_off_bus0 k s p, ?_⟩
  intro hrise
  by_cases hbus : GET_BUS p = 0
  swap
  · rw [rx_hook_off_bus0 k s p hbus] at hrise
    rcases hrise with ⟨h1, h2⟩ | ⟨h1, h2⟩ <;> rw [h1] at h2 <;> exact absurd h2 (by decide)
  rw [rx_hook_on_bus0 k s p hbus] at hrise
  have g1 := hk1.2.2.2.2
  have g2 := hk2.2.2.2.2
  beta_reduce at g1 g2
  rw [g1, g2] at hrise
  by_cases haddr : GET_ADDR p = MSG_GRA_ACC_01
  swap
  · obtain ⟨f1, f2⟩ := rx_blocks_flags_off_gra k s p hk1 hk2 haddr
    rw [f1, f2] at hrise
    rcases hrise with ⟨h1, h2⟩ | ⟨h1, h2⟩ <;> rw [h1] at h2 <;> exact absurd h2 (by decide)
  rw [rx_blocks_on_gra_acc_01 k s p haddr, rx_gra_acc_01, (rx_gra_cancel_flags _ p).1,
    (rx_gra_cancel_flags _ p).2, (rx_gra_buttons_flags s p).1, (rx_gra_buttons_flags s p).2]
    at hrise
  have hedge := gra_falling_edge_iff s p
  have key : s.volkswagen_longitudinal = true ∧ gra_falling_edge s p = true ∧
      s.acc_main_on = true := by
    revert hrise
    cases s.volkswagen_longitudinal <;> cases gra_falling_edge s p <;>
      cases s.acc_main_on <;> cases s.controls_allowed <;> cases s.controls_allowed_long <;>
      cases GET_BIT p 13 <;> simp
  exact ⟨key.1, haddr, hbus, hedge.mp key.2.1, key.2.2⟩

theorem authorisation_only_by_button_edge_witness :
    (volkswagen_meb_rx_hook idle_collaborators buttons_held_state
      (gra_frame 0 0)).controls_allowed = true ∧
    buttons_held_state.acc_main_on = true :=
  ⟨by decide,
    ((authorisation_only_by_button_edge controls_off_checks idle_collaborators 0x9F false false
      buttons_held_state (gra_frame 0 0) (idle_keeps _) (idle_keeps _)).2.2.2.2.2
      (Or.inl ⟨rfl, by decide⟩)).2.2.2.2⟩

theorem esp_01_word_eq (p : CANPacket_t) (lo : Nat) :
    esp_01_word p lo (lo + 1) = word_le p lo := by
  unfold esp_01_word word_le
  have hb := GET_BYTE_lt p lo
  have hh := GET_BYTE_lt p (lo + 1)
  have hor : GET_BYTE p lo ||| (GET_BYTE p (lo + 1) <<< 8) =
      2 ^ 8 * GET_BYTE p (lo + 1) + GET_BYTE p lo := by
    rw [Nat.shiftLeft_eq, Nat.or_comm, Nat.mul_comm]
    exact (Nat.mul_add_lt_is_or (i := 8) hb _).symm
  rw [hor]
  omega

theorem acc_raw_of_bytes (raw : Nat) (h : raw < 2048) :
    (((raw / 256) % 8 % 256 &&& 0x7) <<< 8) ||| (raw % 256 % 256) = raw := by
  have h1 : (raw / 256) % 8 % 256 = raw / 256 := by omega
  have h2 : raw % 256 % 256 = raw % 256 := by omega
  have h3 : raw / 256 &&& 0x7 = raw / 256 := by
    have := Nat.and_pow_two_sub_one_eq_mod (raw / 256) 3
    simp only [Nat.reducePow, Nat.reduceSub] at this
    rw [this]
    omega
  rw [h1, h2, h3, Nat.shiftLeft_eq, Nat.mul_comm]
  rw [← Nat.mul_add_lt_is_or (i := 8) (by omega : raw % 256 < 2 ^ 8)]
  omega

/-! ## Acceleration field and wheel speeds -/

/-- C18. For an acceleration `a` (m/s2 * 1000) with `-7220 <= a <= 3015`, encoded as the
11-bit raw value `(a + 7220) / 5` in byte 3 and the low three bits of byte 4, the transmit
hook's decoding `(raw * 5U) - 7220U` read as an `int` gives `a - (a + 7220) % 5`: it is
within less than 5 of `a` and equal to `a` when `a` is a multiple of 5, also for negative
`a`. -/
theorem acc_accel_round_trip (a : Int) (hlo : -7220 ≤ a) (hhi : a ≤ 3015) :
    acc_desired_accel (acc_encode a) = a - (a + 7220) % 5 ∧
    |acc_desired_accel (acc_encode a) - a| < 5 ∧
    (a % 5 = 0 → acc_desired_accel (acc_encode a) = a) := by
  have hraw : ((a + 7220) / 5).toNat < 2048 := by omega
  have hdec : acc_desired_accel (acc_encode a) =
      to_int32 (((((a + 7220) / 5).toNat * 5) % 2 ^ 32 + (2 ^ 32 - 7220)) % 2 ^ 32) := by
    have h3 : GET_BYTE (acc_encode a) 3 = ((a + 7220) / 5).toNat % 256 % 256 := rfl
    have h4 : GET_BYTE (acc_encode a) 4 = ((a + 7220) / 5).toNat / 256 % 8 % 256 := rfl
    unfold acc_desired_accel
    simp only [h3, h4]
    rw [acc_raw_of_bytes _ hraw]
  have hval : acc_desired_accel (acc_encode a) = a - (a + 7220) % 5 := by
    rw [hdec]
    unfold to_int32
    generalize hr : ((a + 7220) / 5).toNat = r at hraw
    have hr2 : (r : Int) = (a + 7220) / 5 := by omega
    split <;> omega
  refine ⟨hval, ?_, ?_⟩
  · rw [hval, abs_lt]
    constructor <;> omega
  · intro h5
    rw [hval]
    omega

theorem acc_accel_round_trip_witness :
    acc_desired_accel (acc_encode (-3500)) = -3500 ∧
    |acc_desired_accel (acc_encode (-3498)) - (-3498)| < 5 :=
  ⟨(acc_accel_round_trip (-3500) (by decide) (by decide)).2.2 (by decide),
    (acc_accel_round_trip (-3498) (by decide) (by decide)).2.1⟩

/-- C19. For an MEB_ESP_01 frame on bus 0 and framework functions that do not write
`vehicle_moving`: `vehicle_moving` after the hook is true iff one of the four 16-bit
little-endian words at bytes 8-9, 10-11, 12-13, 14-15 is nonzero; the value fed to the speed
update is the integer average of the four words; and when all four are zero
`vehicle_moving` is false and that average is 0. -/
theorem rx_hook_esp_01_moving (k : RxCollaborators) (hk : keeps k (fun t => t.vehicle_moving))
    (s : SafetyState) (p : CANPacket_t) (haddr : GET_ADDR p = MSG_MEB_ESP_01)
    (hbus : GET_BUS p = 0) :
    ((volkswagen_meb_rx_hook k s p).vehicle_moving = true ↔
      (word_le p 8 ≠ 0 ∨ word_le p 10 ≠ 0 ∨ word_le p 12 ≠ 0 ∨ word_le p 14 ≠ 0)) ∧
    rx_blocks k s p = k.update_vehicle_speed (esp_01_speed_average p)
      { s with vehicle_moving := decide (word_le p 10 > 0) || decide (word_le p 14 > 0) ||
          decide (word_le p 12 > 0) || decide (word_le p 8 > 0) } ∧
    esp_01_speed_average p = (word_le p 10 + word_le p 14 + word_le p 12 + word_le p 8) / 4 ∧
    (word_le p 8 = 0 → word_le p 10 = 0 → word_le p 12 = 0 → word_le p 14 = 0 →
      (volkswagen_meb_rx_hook k s p).vehicle_moving = false ∧ esp_01_speed_average p = 0) := by
  obtain ⟨a1, _, _, _, a5⟩ := hk
  beta_reduce at a1 a5
  have hb := GET_BYTE_lt p
  have hblocks : rx_blocks k s p = k.update_vehicle_speed (esp_01_speed_average p)
      { s with vehicle_moving := decide (word_le p 10 > 0) || decide (word_le p 14 > 0) ||
          decide (word_le p 12 > 0) || decide (word_le p 8 > 0) } := by
    rw [rx_blocks_on_esp_01 k s p haddr]
    unfold rx_meb_esp_01
    simp only [esp_01_word_eq]
  have havg : esp_01_speed_average p =
      (word_le p 10 + word_le p 14 + word_le p 12 + word_le p 8) / 4 := by
    unfold esp_01_speed_average
    simp only [esp_01_word_eq]
    have h8 := hb 8; have h9 := hb 9; have h10 := hb 10; have h11 := hb 11
    have h12 := hb 12; have h13 := hb 13; have h14 := hb 14; have h15 := hb 15
    simp only [word_le, Nat.reduceAdd]
    omega
  have hmov : (volkswagen_meb_rx_hook k s p).vehicle_moving =
      (decide (word_le p 10 > 0) || decide (word_le p 14 > 0) ||
        decide (word_le p 12 > 0) || decide (word_le p 8 > 0)) := by
    rw [rx_hook_on_bus0 k s p hbus, a5, hblocks, a1]
  refine ⟨?_, hblocks, havg, ?_⟩
  · rw [hmov]
    simp only [Bool.or_eq_true, decide_eq_true_eq]
    omega
  · intro z8 z10 z12 z14
    rw [hmov, havg, z8, z10, z12, z14]
    exact ⟨by decide, by decide⟩

theorem rx_hook_esp_01_moving_witness :
    (volkswagen_meb_rx_hook idle_collaborators state_after_init
      (esp_frame [0, 0, 0, 0, 0, 0, 0, 0])).vehicle_moving = false ∧
    esp_01_speed_average (esp_frame [0, 0, 0, 0, 0, 0, 0, 0]) = 0 ∧
    (volkswagen_meb_rx_hook idle_collaborators state_after_init
      (esp_frame [0, 0, 0, 0, 0, 1, 0, 0])).vehicle_moving = true :=
  ⟨((rx_hook_esp_01_moving idle_collaborators (idle_keeps _) state_after_init
      (esp_frame [0, 0, 0, 0, 0, 0, 0, 0]) rfl rfl).2.2.2 (by decide) (by decide) (by decide)
      (by decide)).1,
    by decide,
    (rx_hook_esp_01_moving idle_collaborators (idle_keeps _) state_after_init
      (esp_frame [0, 0, 0, 0, 0, 1, 0, 0]) rfl rfl).1.2 (Or.inr (Or.inr (Or.inl (by decide))))⟩

/-! ## Frame shapes and read offsets -/

theorem tx_hook_on_other (c : Collaborators) (s : SafetyState) (p : CANPacket_t)
    (h1 : GET_ADDR p ≠ MSG_HCA_03) (h2 : GET_ADDR p ≠ MSG_MEB_ACC_02)
    (h3 : GET_ADDR p ≠ MSG_GRA_ACC_01) : volkswagen_meb_tx_hook c s p = (true, s) := by
  simp [volkswagen_meb_tx_hook, h1, h2, h3]

/-- The receive hook reads the address, the bus and the bytes of `rx_hook_reads` only. -/
theorem rx_hook_reads_sound (k : RxCollaborators) (s : SafetyState) (p q : CANPacket_t)
    (h : same_on (rx_hook_reads (GET_ADDR p)) p q) :
    volkswagen_meb_rx_hook k s p = volkswagen_meb_rx_hook k s q := by
  obtain ⟨ha, hb, hr⟩ := h
  have hblocks : rx_blocks k s p = rx_blocks k s q := by
    by_cases h1 : GET_ADDR p = MSG_MEB_ESP_01
    · rw [h1] at hr
      rw [rx_blocks_on_esp_01 k s p h1, rx_blocks_on_esp_01 k s q (ha ▸ h1)]
      simp only [rx_meb_esp_01, esp_01_speed_average, esp_01_word, hr 8 (by decide),
        hr 9 (by decide), hr 10 (by decide), hr 11 (by decide), hr 12 (by decide),
        hr 13 (by decide), hr 14 (by decide), hr 15 (by decide)]
    by_cases h2 : GET_ADDR p = MSG_MEB_ESP_05
    · rw [h2] at hr
      rw [rx_blocks_on_esp_05 k s p h2, rx_blocks_on_esp_05 k s q (ha ▸ h2)]
      simp only [GET_BIT, Nat.reduceDiv, hr 4 (by decide)]
    by_cases h3 : GET_ADDR p = MSG_MEB_ESP_04
    · rw [h3] at hr
      rw [rx_blocks_on_esp_04 k s p h3, rx_blocks_on_esp_04 k s q (ha ▸ h3)]
      simp only [esp_04_yaw_raw, GET_BIT, Nat.reduceDiv, hr 5 (by decide), hr 6 (by decide)]
    by_cases h4 : GET_ADDR p = MSG_MEB_MOTOR_01
    · rw [h4] at hr
      rw [rx_blocks_on_motor_01 k s p h4, rx_blocks_on_motor_01 k s q (ha ▸ h4)]
      simp only [rx_meb_motor_01, motor_01_cruise_engaged, motor_01_acc_status,
        hr 11 (by decide)]
    by_cases h5 : GET_ADDR p = MSG_GRA_ACC_01
    · rw [h5] at hr
      rw [rx_blocks_on_gra_acc_01 k s p h5, rx_blocks_on_gra_acc_01 k s q (ha ▸ h5)]
      simp only [rx_gra_acc_01, rx_gra_cancel, rx_gra_buttons, GET_BIT, Nat.reduceDiv,
        hr 1 (by decide), hr 2 (by decide)]
    by_cases h6 : GET_ADDR p = MSG_MOTOR_14
    · rw [h6] at hr
      rw [rx_blocks_on_motor_14 k s p h6, rx_blocks_on_motor_14 k s q (ha ▸ h6)]
      simp only [GET_BIT, Nat.reduceDiv, hr 3 (by decide)]
    by_cases h7 : GET_ADDR p = MSG_MEB_ESP_03
    · rw [h7] at hr
      rw [rx_blocks_on_esp_03 k s p h7, rx_blocks_on_esp_03 k s q (ha ▸ h7)]
      simp only [hr 21 (by decide)]
    rw [rx_blocks_on_other k s p h1 h2 h3 h4 h5 h6 h7,
      rx_blocks_on_other k s q (ha ▸ h1) (ha ▸ h2) (ha ▸ h3) (ha ▸ h4) (ha ▸ h5) (ha ▸ h6)
        (ha ▸ h7)]
  unfold volkswagen_meb_rx_hook
  rw [← hb, ← ha, hblocks]

/-- The transmit hook reads the address and the bytes of `tx_hook_reads` only. -/
theorem tx_hook_reads_sound (c : Collaborators) (s : SafetyState) (p q : CANPacket_t)
    (h : same_on (tx_hook_reads (GET_ADDR p)) p q) :
    volkswagen_meb_tx_hook c s p = volkswagen_meb_tx_hook c s q := by
  obtain ⟨ha, _, hr⟩ := h
  by_cases h1 : GET_ADDR p = MSG_HCA_03
  · rw [h1] at hr
    rw [tx_hook_on_hca c s p h1, tx_hook_on_hca c s q (ha ▸ h1)]
    simp only [tx_hca_03, hca_desired_curvature_raw, hca_curvature_magnitude, hca_steer_req,
      hca_steer_power, GET_BIT, Nat.reduceDiv, hr 1 (by decide), hr 2 (by decide),
      hr 3 (by decide), hr 4 (by decide)]
  by_cases h2 : GET_ADDR p = MSG_MEB_ACC_02
  · rw [h2] at hr
    rw [tx_hook_on_acc c s p h2, tx_hook_on_acc c s q (ha ▸ h2)]
    simp only [tx_meb_acc_02, acc_desired_accel, hr 3 (by decide), hr 4 (by decide)]
  by_cases h3 : GET_ADDR p = MSG_GRA_ACC_01
  · rw [h3] at hr
    rw [tx_hook_on_gra c s p h3, tx_hook_on_gra c s q (ha ▸ h3)]
    simp only [tx_gra_acc_01, GET_BIT, Nat.reduceDiv, hr 1 (by decide), hr 2 (by decide)]
  rw [tx_hook_on_other c s p h1 h2 h3,
    tx_hook_on_other c s q (ha ▸ h1) (ha ▸ h2) (ha ▸ h3)]

theorem rx_checks_cover_reads (lh : Nat) :
    ∀ a ∈ [0xFC, 0x139, 0x102, 0x10B, 0x12B, 0x3BE, 0x14C],
      ∃ e ∈ volkswagen_meb_rx_checks lh, e.addr = a ∧ e.bus = 0 ∧
        ∀ i ∈ rx_hook_reads a, i < e.len := by
  intro a ha
  simp only [List.mem_cons, List.mem_singleton, List.not_mem_nil, or_false] at ha
  rcases ha with h | h | h | h | h | h | h <;> subst h
  · exact ⟨⟨MSG_MEB_ESP_01, 0, 48, true, 15, 100⟩, by simp [volkswagen_meb_rx_checks], rfl, rfl,
      by decide⟩
  · exact ⟨⟨MSG_MEB_ESP_05, 0, 32, true, 15, 50⟩, by simp [volkswagen_meb_rx_checks], rfl, rfl,
      by decide⟩
  · exact ⟨⟨MSG_MEB_ESP_04, 0, 48, true, 15, 50⟩, by simp [volkswagen_meb_rx_checks], rfl, rfl,
      by decide⟩
  · exact ⟨⟨MSG_MEB_MOTOR_01, 0, 32, true, 15, 50⟩, by simp [volkswagen_meb_rx_checks], rfl,
      rfl, by decide⟩
  · exact ⟨⟨MSG_GRA_ACC_01, 0, 8, true, 15, 33⟩, by simp [volkswagen_meb_rx_checks], rfl, rfl,
      by decide⟩
  · exact ⟨⟨MSG_MOTOR_14, 0, 8, true, 15, 10⟩, by simp [volkswagen_meb_rx_checks], rfl, rfl,
      by decide⟩
  · exact ⟨⟨MSG_MEB_ESP_03, 0, 32, true, 15, 10⟩, by simp [volkswagen_meb_rx_checks], rfl, rfl,
      by decide⟩

theorem tx_msgs_cover_reads (lh : Nat) :
    ∀ a ∈ [0x303, 0x14D, 0x12B],
      (∃ e ∈ VOLKSWAGEN_MEB_STOCK_TX_MSGS lh ++ VOLKSWAGEN_MEB_LONG_TX_MSGS lh, e.addr = a) ∧
      ∀ e ∈ VOLKSWAGEN_MEB_STOCK_TX_MSGS lh ++ VOLKSWAGEN_MEB_LONG_TX_MSGS lh, e.addr = a →
        ∀ i ∈ tx_hook_reads a, i < e.len := by
  intro a ha
  simp only [List.mem_cons, List.mem_singleton, List.not_mem_nil, or_false] at ha
  have hall : ∀ e ∈ VOLKSWAGEN_MEB_STOCK_TX_MSGS lh ++ VOLKSWAGEN_MEB_LONG_TX_MSGS lh,
      8 ≤ e.len ∧ (e.addr = 0x303 → e.len = 24 ∨ e.addr = lh) ∧
        (e.addr = 0x14D → e.len = 32 ∨ e.addr = lh) := by
    intro e he
    simp only [VOLKSWAGEN_MEB_STOCK_TX_MSGS, VOLKSWAGEN_MEB_LONG_TX_MSGS, List.cons_append,
      List.nil_append, List.mem_cons, List.mem_singleton, List.not_mem_nil, or_false] at he
    rcases he with h | h | h | h | h | h | h | h | h | h | h <;> subst h <;>
      simp [MSG_HCA_03, MSG_GRA_ACC_01, MSG_LDW_02, MSG_MEB_ACC_01, MSG_MEB_ACC_02,
        MSG_MEB_TRAVEL_ASSIST_01]
  rcases ha with h | h | h <;> subst h
  · refine ⟨⟨⟨MSG_HCA_03, 0, 24⟩, by simp [VOLKSWAGEN_MEB_STOCK_TX_MSGS], rfl⟩, ?_⟩
    intro e he _ i hi
    have h8 := (hall e he).1
    simp [tx_hook_reads, MSG_HCA_03] at hi
    omega
  · refine ⟨⟨⟨MSG_MEB_ACC_02, 0, 32⟩, by simp [VOLKSWAGEN_MEB_LONG_TX_MSGS], rfl⟩, ?_⟩
    intro e he _ i hi
    have h8 := (hall e he).1
    simp [tx_hook_reads, MSG_HCA_03, MSG_MEB_ACC_02] at hi
    omega
  · refine ⟨⟨⟨MSG_GRA_ACC_01, 0, 8⟩, by simp [VOLKSWAGEN_MEB_STOCK_TX_MSGS], rfl⟩, ?_⟩
    intro e he _ i hi
    have h8 := (hall e he).1
    simp [tx_hook_reads, MSG_HCA_03, MSG_MEB_ACC_02, MSG_GRA_ACC_01] at hi
    omega

/-- C20. Every fixed offset the hooks read is in bounds. The hooks read only the bytes of
`rx_hook_reads` and `tx_hook_reads` (frames that agree there get the same result); each
address the receive hook decodes has a bus-0 entry in `volkswagen_meb_rx_checks` whose
length is above every byte it reads; each address the transmit hook decodes is in a transmit
allowlist and every allowlist entry for it is longer than every byte read; the counter is
below 16, the size of every salt table, and at most the `max_counter` of every receive
check, whose length covers the checksum and counter bytes; and the checksum loop reads
bytes below the frame length. -/
theorem hook_reads_in_bounds (lh : Nat) (c : Collaborators) (k : RxCollaborators)
    (s : SafetyState) (p q : CANPacket_t) :
    (same_on (rx_hook_reads (GET_ADDR p)) p q →
      volkswagen_meb_rx_hook k s p = volkswagen_meb_rx_hook k s q) ∧
    (same_on (tx_hook_reads (GET_ADDR p)) p q →
      volkswagen_meb_tx_hook c s p = volkswagen_meb_tx_hook c s q) ∧
    (∀ a ∈ [0xFC, 0x139, 0x102, 0x10B, 0x12B, 0x3BE, 0x14C],
      ∃ e ∈ volkswagen_meb_rx_checks lh, e.addr = a ∧ e.bus = 0 ∧
        ∀ i ∈ rx_hook_reads a, i < e.len) ∧
    (∀ a ∈ [0x303, 0x14D, 0x12B],
      (∃ e ∈ VOLKSWAGEN_MEB_STOCK_TX_MSGS lh ++ VOLKSWAGEN_MEB_LONG_TX_MSGS lh, e.addr = a) ∧
      ∀ e ∈ VOLKSWAGEN_MEB_STOCK_TX_MSGS lh ++ VOLKSWAGEN_MEB_LONG_TX_MSGS lh, e.addr = a →
        ∀ i ∈ tx_hook_reads a, i < e.len) ∧
    volkswagen_meb_get_counter p < 16 ∧
    (∀ e ∈ salt_tables lh, e.2.length = 16) ∧
    (∀ e ∈ volkswagen_meb_rx_checks lh,
      e.max_counter = 15 ∧ volkswagen_meb_get_counter p ≤ e.max_counter ∧ 1 < e.len) ∧
    (∀ i ∈ List.range' 1 (GET_LEN p - 1), 1 ≤ i ∧ i < GET_LEN p) := by
  have hcnt : volkswagen_meb_get_counter p < 16 := by
    unfold volkswagen_meb_get_counter
    have : GET_BYTE p 1 &&& 0xF ≤ 0xF := Nat.and_le_right
    omega
  refine ⟨rx_hook_reads_sound k s p q, tx_hook_reads_sound c s p q, rx_checks_cover_reads lh,
    tx_msgs_cover_reads lh, hcnt, ?_, ?_, ?_⟩
  · intro e he
    simp only [salt_tables, List.mem_cons, List.mem_singleton, List.not_mem_nil, or_false] at he
    rcases he with h | h | h | h | h | h | h | h | h | h <;> subst h <;> rfl
  · intro e he
    simp only [volkswagen_meb_rx_checks, List.mem_cons, List.mem_singleton, List.not_mem_nil,
      or_false] at he
    rcases he with h | h | h | h | h | h | h | h | h | h <;> subst h <;>
      exact ⟨rfl, Nat.le_of_lt_succ hcnt, by simp⟩
  · intro i hi
    have := List.mem_range'_1.mp hi
    omega

theorem hook_reads_in_bounds_witness :
    volkswagen_meb_rx_hook idle_collaborators state_after_init
        (esp_frame [1, 0, 0, 0, 0, 0, 0, 0]) =
      volkswagen_meb_rx_hook idle_collaborators state_after_init
        (set_byte (esp_frame [1, 0, 0, 0, 0, 0, 0, 0]) 20 7) :=
  (hook_reads_in_bounds 0x9F controls_off_checks idle_collaborators state_after_init
    (esp_frame [1, 0, 0, 0, 0, 0, 0, 0])
    (set_byte (esp_frame [1, 0, 0, 0, 0, 0, 0, 0]) 20 7)).1 ⟨rfl, rfl, by decide⟩

end VolkswagenMeb
